import Mathlib

/-!
Verification of the scan-orchestration core of the CyberSecTraining backend.

This file gives a shallow embedding, in Lean, of the Python code under
`backend/app/services/scanner/`:

* `network_validator.py` — `NetworkValidator` (private-range and size checks);
* `fake_network_generator.py` — `FakeNetworkGenerator` (the deterministic
  simulated scanner used in training mode);
* `device_fingerprint.py` — `DeviceFingerprinter` (port-based classification);
* `orchestrator.py` — `ScanOrchestrator` (consent, rate limiting, lifecycle).

The simulated scanner draws all its randomness from `random.Random(seed)`
where `seed` is the first 4 bytes of `sha256(target)`.  To settle concrete
claims about it we embed, bit for bit, the parts of CPython it relies on:
SHA-256, the MT19937 generator exactly as CPython seeds and drives it
(`init_by_array`, `genrand_uint32`, `getrandbits`, `_randbelow`, `randint`,
`choice`, `sample`, `choices`), and the IEEE-754 double arithmetic used by
`random()`, the weight tables and `bisect` inside `choices` (represented
exactly as dyadic rationals with round-to-nearest-even).

Machine integers are `Nat` with explicit masking by `2^32 - 1`; Python floats
are exact dyadic values (`F64`); fallible code returns `Except`/`Option`;
`datetime.now()` becomes an explicit `Nat` parameter.  All definitions are
executable, so witnesses evaluate by `decide`.
-/

/-- `2^32 - 1`, the mask for 32-bit words. -/
def m32 : Nat := 4294967295

/-- Number of bits of `n` (Python `int.bit_length`). -/
def bitLenAux : Nat → Nat → Nat
  | _, 0 => 0
  | 0, _ + 1 => 0
  | f + 1, n + 1 => bitLenAux f ((n + 1) / 2) + 1

/-- `int.bit_length` (the fuel `n` always suffices: halving reaches 0 within
`n` steps). -/
def bitLen (n : Nat) : Nat := bitLenAux n n

/-- Strict binder on `Nat`: semantically `bindN v k = k v`.  The match forces
kernel reduction to evaluate `v` to a numeral before passing it on, which
keeps the evaluation stack shallow when long chains of values are computed
(the MT19937 state below is such a chain). -/
def bindN (v : Nat) (k : Nat → α) : α :=
  match v with
  | 0 => k 0
  | n + 1 => k (n + 1)

theorem bindN_eq (v : Nat) (k : Nat → α) : bindN v k = k v := by
  cases v <;> rfl

namespace Sha256

/-! SHA-256 (FIPS 180-4), operating on a list of bytes.  Only the first
32-bit word of the digest is consumed by the generator
(`hashlib.sha256(target.encode()).digest()[:4]`, big-endian). -/

def kConsts : List Nat := [
  1116352408, 1899447441, 3049323471, 3921009573, 961987163, 1508970993, 2453635748, 2870763221,
  3624381080, 310598401, 607225278, 1426881987, 1925078388, 2162078206, 2614888103, 3248222580,
  3835390401, 4022224774, 264347078, 604807628, 770255983, 1249150122, 1555081692, 1996064986,
  2554220882, 2821834349, 2952996808, 3210313671, 3336571891, 3584528711, 113926993, 338241895,
  666307205, 773529912, 1294757372, 1396182291, 1695183700, 1986661051, 2177026350, 2456956037,
  2730485921, 2820302411, 3259730800, 3345764771, 3516065817, 3600352804, 4094571909, 275423344,
  430227734, 506948616, 659060556, 883997877, 958139571, 1322822218, 1537002063, 1747873779,
  1955562222, 2024104815, 2227730452, 2361852424, 2428436474, 2756734187, 3204031479, 3329325298]

def hInit : List Nat :=
  [1779033703, 3144134277, 1013904242, 2773480762, 1359893119, 2600822924, 528734635, 1541459225]

def rotr (x n : Nat) : Nat := ((x >>> n) ||| (x <<< (32 - n))) &&& m32

def bytesToWords : List Nat → List Nat
  | b0 :: b1 :: b2 :: b3 :: rest =>
    (b0 <<< 24 ||| b1 <<< 16 ||| b2 <<< 8 ||| b3) :: bytesToWords rest
  | _ => []

/-- Append the 0x80 byte, zero padding and the 64-bit big-endian bit length. -/
def pad (msg : List Nat) : List Nat :=
  let l := msg.length
  let zeros := (64 - (l + 9) % 64) % 64
  msg ++ [128] ++ List.replicate zeros 0 ++
    [(8 * l >>> 56) &&& 255, (8 * l >>> 48) &&& 255, (8 * l >>> 40) &&& 255, (8 * l >>> 32) &&& 255,
     (8 * l >>> 24) &&& 255, (8 * l >>> 16) &&& 255, (8 * l >>> 8) &&& 255, (8 * l) &&& 255]

def schedAux (w : List Nat) (i fuel : Nat) : List Nat :=
  match fuel with
  | 0 => w
  | f + 1 =>
    let w15 := w.getD (i - 15) 0
    let w2 := w.getD (i - 2) 0
    let s0 := (rotr w15 7) ^^^ (rotr w15 18) ^^^ (w15 >>> 3)
    let s1 := (rotr w2 17) ^^^ (rotr w2 19) ^^^ (w2 >>> 10)
    bindN ((w.getD (i - 16) 0 + s0 + w.getD (i - 7) 0 + s1) &&& m32) fun v =>
      schedAux (w ++ [v]) (i + 1) f

def compressAux (w : List Nat) (i fuel : Nat) (st : List Nat) : List Nat :=
  match fuel with
  | 0 => st
  | f + 1 =>
    match st with
    | [a, b, c, d, e, ff, g, h] =>
      let s1 := (rotr e 6) ^^^ (rotr e 11) ^^^ (rotr e 25)
      let ch := (e &&& ff) ^^^ ((m32 ^^^ e) &&& g)
      bindN ((h + s1 + ch + kConsts.getD i 0 + w.getD i 0) &&& m32) fun t1 =>
        let s0 := (rotr a 2) ^^^ (rotr a 13) ^^^ (rotr a 22)
        let mj := (a &&& b) ^^^ (a &&& c) ^^^ (b &&& c)
        bindN ((s0 + mj) &&& m32) fun t2 =>
          compressAux w (i + 1) f
            [(t1 + t2) &&& m32, a, b, c, (d + t1) &&& m32, e, ff, g]
    | _ => st

def processBlock (h : List Nat) (block : List Nat) : List Nat :=
  let w := schedAux (bytesToWords block) 16 48
  let st := compressAux w 0 64 h
  (List.zip h st).map (fun p => bindN ((p.1 + p.2) &&& m32) id)

def processAux : Nat → List Nat → List Nat → List Nat
  | 0, h, _ => h
  | f + 1, h, msg =>
    match msg with
    | [] => h
    | _ => processAux f (processBlock h (msg.take 64)) (msg.drop 64)

/-- First 32-bit word (big-endian) of the SHA-256 digest of the given bytes;
this equals `int.from_bytes(sha256(data).digest()[:4], byteorder='big')`. -/
def firstWord (msg : List Nat) : Nat :=
  let padded := pad msg
  (processAux (padded.length / 64) hInit padded).getD 0 0

end Sha256

/-- Bytes of an ASCII string (`str.encode()`; every target the scanner
handles is ASCII, where UTF-8 coincides with the code points). -/
def strBytes (s : String) : List Nat := s.toList.map Char.toNat

namespace F64

/-!  Exact model of the positive IEEE-754 binary64 values that CPython's
`random()`, `choices` and the `> 0.1` comparison manipulate: a value is
`m * 2^e` with `m = 0` or `2^52 ≤ m < 2^53` after normalisation.  All inputs
here are small positive decimals and 53-bit fractions, so neither overflow,
underflow nor signs arise; `roundTo53` is round-to-nearest, ties to even. -/

structure F (dummy : Unit) where
  m : Nat
  e : Int
deriving Repr, DecidableEq

abbrev D := F ()

def zero : D := ⟨0, 0⟩

/-- Round `q * 2^e` (plus a sticky bit for a discarded non-zero tail) to a
53-bit mantissa, round-to-nearest, ties to even. -/
def roundTo53 (q : Nat) (sticky : Bool) (e : Int) : D :=
  if q = 0 then ⟨0, 0⟩
  else
    let b := bitLen q
    if b ≤ 53 then ⟨q, e⟩
    else
      let sh := b - 53
      let keep := q >>> sh
      let rem := q &&& ((1 <<< sh) - 1)
      let half := 1 <<< (sh - 1)
      let up := rem > half || (rem == half && (sticky || keep &&& 1 == 1))
      let keep' := if up then keep + 1 else keep
      if keep' == 1 <<< 53 then ⟨keep' >>> 1, e + sh + 1⟩ else ⟨keep', e + sh⟩

def add (x y : D) : D :=
  if x.m = 0 then y
  else if y.m = 0 then x
  else if x.e ≤ y.e then roundTo53 (x.m + (y.m <<< (y.e - x.e).toNat)) false x.e
  else roundTo53 ((x.m <<< (x.e - y.e).toNat) + y.m) false y.e

def mul (x y : D) : D :=
  if x.m = 0 || y.m = 0 then ⟨0, 0⟩
  else roundTo53 (x.m * y.m) false (x.e + y.e)

/-- The double nearest to `n / d` (correctly rounded, `n, d > 0`); this is the
value of a decimal literal such as `0.4 = ofRat 4 10`. -/
def ofRat (n d : Nat) : D :=
  if n = 0 || d = 0 then ⟨0, 0⟩
  else
    let t := 54 + bitLen d
    roundTo53 ((n <<< t) / d) (decide ((n <<< t) % d ≠ 0)) (-(t : Int))

/-- The exact double `m / 2^53` (`m < 2^53`), the value CPython's `random()`
returns: `(genrand >> 5) * 2^26 + (genrand >> 6)` over `2^53`. -/
def ofM53 (m : Nat) : D := roundTo53 m false (-53)

def lt (x y : D) : Bool :=
  if x.e ≤ y.e then x.m < (y.m <<< (y.e - x.e).toNat)
  else (x.m <<< (x.e - y.e).toNat) < y.m

/-- Running sums (`itertools.accumulate`) in double arithmetic. -/
def accumAux (acc : D) : List D → List D
  | [] => []
  | w :: ws => let acc' := add acc w; acc' :: accumAux acc' ws

def accum : List D → List D
  | [] => []
  | w :: ws => w :: accumAux w ws

/-- `bisect.bisect_right(cum, x, 0, hi)`. -/
def bisectAux (cum : List D) (x : D) (lo hi : Nat) : Nat → Nat
  | 0 => lo
  | f + 1 =>
    if lo < hi then
      let mid := (lo + hi) / 2
      if lt x (cum.getD mid zero) then bisectAux cum x lo mid f
      else bisectAux cum x (mid + 1) hi f
    else lo

def bisectRight (cum : List D) (x : D) (hi : Nat) : Nat :=
  bisectAux cum x 0 hi (cum.length + 1)

end F64

namespace PyRandom

/-! CPython's `random.Random`, seeded with an integer below `2^32` (the
generator always seeds with the first four bytes of a SHA-256 digest).  The
MT19937 state array of 624 32-bit words is packed into a single natural
number: word `i` of the array is `(mt >>> (32*i)) &&& m32`. -/

structure RandState where
  mt : Nat
  mti : Nat
deriving Repr, DecidableEq

/-- Word `i` of a packed state array. -/
def word (s i : Nat) : Nat := (s >>> (32 * i)) &&& m32

/-- init_genrand: `mt[0] = s`; `mt[i] = (1812433253 * (mt[i-1] ^ (mt[i-1] >> 30)) + i) mod 2^32`. -/
def initGenrandAux (prev i : Nat) (acc : Nat) : Nat → Nat
  | 0 => acc
  | f + 1 =>
    bindN ((1812433253 * (prev ^^^ (prev >>> 30)) + i) &&& m32) fun v =>
      bindN (acc ||| (v <<< (32 * i))) fun acc' =>
        initGenrandAux v (i + 1) acc' f

def initGenrand (s : Nat) : Nat := initGenrandAux (s &&& m32) 1 (s &&& m32) 623

def mix1 (seed : Nat) (prev x : Nat) : Nat :=
  ((x ^^^ ((prev ^^^ (prev >>> 30)) * 1664525)) + seed) &&& m32

/-- Subtraction mod `2^32` (`v < 2^32`, `i ≤ 624`). -/
def sub32 (v i : Nat) : Nat := (v + 4294967296 - i) &&& m32

def mix2 (prev x i : Nat) : Nat :=
  sub32 ((x ^^^ ((prev ^^^ (prev >>> 30)) * 1566083941)) &&& m32) i

/-- First mixing sweep of init_by_array (the `1664525` loop) over positions
`i, i+1, ...` of `src`, carrying `prev`; the new words are packed starting at
bit 0 of the accumulator, and the last value written is returned with it. -/
def sweep1 (seed src prev i : Nat) (acc : Nat) : Nat → Nat × Nat
  | 0 => (acc, prev)
  | f + 1 =>
    bindN (mix1 seed prev (word src i)) fun v =>
      bindN (acc ||| (v <<< (32 * (i - 1)))) fun acc' =>
        sweep1 seed src v (i + 1) acc' f

/-- Second mixing sweep of init_by_array (the `1566083941` loop). -/
def sweep2 (src prev i : Nat) (acc : Nat) : Nat → Nat × Nat
  | 0 => (acc, prev)
  | f + 1 =>
    bindN (mix2 prev (word src i) i) fun v =>
      bindN (acc ||| (v <<< (32 * (i - 2)))) fun acc' =>
        sweep2 src v (i + 1) acc' f

/-- CPython init_by_array specialised to a single-word key (the seed is below
`2^32`, so the key is `[seed]` and the key index contributes `seed + 0` at
every step).  Loop 1 makes 624 in-place updates: positions 1..623, then
`mt[0] := mt[623]` followed by one more update at position 1; loop 2 makes 623
updates: positions 2..623, then `mt[0] := mt[623]` and one more update at
position 1; finally `mt[0] := 0x80000000`. -/
def initByArray (seed : Nat) : Nat :=
  let s0 := initGenrand 19650218
  let p1 := sweep1 seed s0 (word s0 0) 1 0 623
  bindN p1.2 fun t0 =>
    bindN (mix1 seed t0 (word p1.1 0)) fun h1 =>
      -- the array is now t0, h1, then words 2..623 of the first sweep
      bindN (t0 ||| (h1 <<< 32) ||| ((p1.1 >>> 32) <<< 64)) fun a1 =>
        let p2 := sweep2 a1 h1 2 0 622
        bindN p2.2 fun u0 =>
          bindN (mix2 u0 h1 1) fun h2 =>
            2147483648 ||| (h2 <<< 32) ||| (p2.1 <<< 64)

/-- One value of the MT19937 twist.  The C code updates `mt` in place while
reading `mt[i]`, `mt[(i+1) % 624]` and `mt[(i+397) % 624]`; when position `i`
is updated the positions `< i` already hold new values (packed in `t`) and the
positions `≥ i` still hold old ones (packed in `o`), so the wrapped reads
`(i+1) % 624` for `i = 623` and `(i+397) % 624` for `i ≥ 227` read from `t`. -/
def twistVal (o t i : Nat) : Nat :=
  let a := word o i
  let b := if i = 623 then word t 0 else word o (i + 1)
  let c := if i ≥ 227 then word t (i - 227) else word o (i + 397)
  let y := (a &&& 2147483648) ||| (b &&& 2147483647)
  c ^^^ (y >>> 1) ^^^ (if y &&& 1 == 1 then 2567483615 else 0)

def twistAux (o : Nat) (t i : Nat) : Nat → Nat
  | 0 => t
  | f + 1 =>
    bindN (twistVal o t i) fun v =>
      bindN (t ||| (v <<< (32 * i))) fun t' =>
        twistAux o t' (i + 1) f

def twist (mt : Nat) : Nat := twistAux mt 0 0 624

/-- `random.Random(seed)` for an integer seed in `[0, 2^32)`. -/
def seedState (seed : Nat) : RandState := ⟨initByArray seed, 624⟩

/-- genrand_uint32: twist when the index reaches 624, then temper one word. -/
def genrand (st : RandState) : Nat × RandState :=
  let p := if st.mti ≥ 624 then (twist st.mt, 0) else (st.mt, st.mti)
  let y := word p.1 p.2
  let y := y ^^^ (y >>> 11)
  let y := y ^^^ ((y <<< 7) &&& 2636928640)
  let y := y ^^^ ((y <<< 15) &&& 4022730752)
  ((y ^^^ (y >>> 18)) &&& m32, ⟨p.1, p.2 + 1⟩)

/-- `getrandbits(k)` for `1 ≤ k ≤ 32`: the top `k` bits of one output word. -/
def getrandbits (k : Nat) (st : RandState) : Nat × RandState :=
  let q := genrand st
  (q.1 >>> (32 - k), q.2)

/-- `_randbelow_with_getrandbits`: draw `bit_length n` bits, retry while the
draw is `≥ n`.  CPython retries forever; the retry loop is modelled with
fuel 64 and falls back to 0 (still `< n`) in the measure-zero exhaustion case. -/
def randbelowAux (n k : Nat) : Nat → RandState → Nat × RandState
  | 0, st => (0, st)
  | f + 1, st =>
    let q := getrandbits k st
    if q.1 < n then q else randbelowAux n k f q.2

def randbelow (n : Nat) (st : RandState) : Nat × RandState :=
  if n = 0 then (0, st) else randbelowAux n (bitLen n) 64 st

/-- `randint(a, b) = a + _randbelow(b - a + 1)`. -/
def randint (a b : Nat) (st : RandState) : Nat × RandState :=
  let q := randbelow (b + 1 - a) st
  (a + q.1, q.2)

/-- `choice(seq) = seq[_randbelow(len(seq))]`. -/
def choiceD (l : List α) (dflt : α) (st : RandState) : α × RandState :=
  let q := randbelow l.length st
  (l.getD q.1 dflt, q.2)

/-- `random()` as the exact numerator over `2^53`:
`(genrand >> 5) * 67108864 + (genrand >> 6)`. -/
def randomM (st : RandState) : Nat × RandState :=
  let qa := genrand st
  let qb := genrand qa.2
  (bindN ((qa.1 >>> 5) * 67108864 + (qb.1 >>> 6)) id, qb.2)

/-- `math.ceil(math.log(m, 4))` for the arguments `random.sample` uses
(`m = 3k`, `k ≤ 21`, where the float computation is exact): the least `e`
with `4^e ≥ m`. -/
def ceilLog4 (m : Nat) : Nat :=
  if m ≤ 1 then 0
  else if m ≤ 4 then 1
  else if m ≤ 16 then 2
  else if m ≤ 64 then 3
  else if m ≤ 256 then 4
  else 5

/-- The `setsize` table-size heuristic in `random.sample`. -/
def sampleSetsize (k : Nat) : Nat :=
  if k ≤ 5 then 21 else 21 + 4 ^ ceilLog4 (3 * k)

/-- The pool branch of `random.sample` (`n ≤ setsize`): repeatedly pick index
`j < n - i` and move the tail element into the hole. -/
def samplePool (dflt : α) (pool : List α) (n i : Nat) (st : RandState)
    (acc : List α) : Nat → List α × RandState
  | 0 => (acc.reverse, st)
  | f + 1 =>
    let q := randbelow (n - i) st
    let x := pool.getD q.1 dflt
    let pool' := pool.set q.1 (pool.getD (n - i - 1) dflt)
    samplePool dflt pool' n (i + 1) q.2 (x :: acc) f

/-- Draw an index `< n` not in `selected` (the rejection loop of the set
branch of `random.sample`), with fuel for the unbounded retry. -/
def sampleFresh (n : Nat) (selected : List Nat) (st : RandState) :
    Nat → Nat × RandState
  | 0 => randbelow n st
  | f + 1 =>
    let q := randbelow n st
    if selected.contains q.1 then sampleFresh n selected q.2 f else q

/-- The set branch of `random.sample` (`n > setsize`). -/
def sampleSel (dflt : α) (pop : List α) (n : Nat) (selected : List Nat)
    (st : RandState) (acc : List α) : Nat → List α × RandState
  | 0 => (acc.reverse, st)
  | f + 1 =>
    let q := sampleFresh n selected st 64
    sampleSel dflt pop n (q.1 :: selected) q.2 (pop.getD q.1 dflt :: acc) f

/-- `random.sample(population, k)` for `k ≤ len(population)`. -/
def sample (dflt : α) (pop : List α) (k : Nat) (st : RandState) :
    List α × RandState :=
  let n := pop.length
  if n ≤ sampleSetsize k then samplePool dflt pop n 0 st [] k
  else sampleSel dflt pop n [] st [] k

/-- `random.choices(population, weights, k=1)[0]`: accumulate the weights,
multiply `random()` by the total and locate the result with `bisect_right`
bounded by `len(population) - 1`. -/
def choicesOne (dflt : α) (pop : List α) (weights : List F64.D)
    (st : RandState) : α × RandState :=
  let cum := F64.accum weights
  let total := cum.getLastD F64.zero
  let q := randomM st
  let idx := F64.bisectRight cum (F64.mul (F64.ofM53 q.1) total) (pop.length - 1)
  (pop.getD idx dflt, q.2)

end PyRandom

namespace IPv4

/-! IPv4 addresses as naturals below `2^32`; networks as (address, prefix
length) pairs, mirroring `ipaddress.IPv4Network(..., strict=False)`. -/

def blockSize (p : Nat) : Nat := 2 ^ (32 - p)

/-- The network address: host bits below the prefix cleared (the
normalisation `strict=False` performs). -/
def netAddr (a p : Nat) : Nat := a - a % blockSize p

/-- The broadcast address of the containing network. -/
def bcast (a p : Nat) : Nat := netAddr a p + blockSize p - 1

def digitChar (d : Nat) : Char := Char.ofNat (48 + d)

def decCharsAux : Nat → Nat → List Char → List Char
  | 0, _, acc => acc
  | f + 1, n, acc =>
    if n < 10 then digitChar n :: acc
    else decCharsAux f (n / 10) (digitChar (n % 10) :: acc)

/-- Decimal digits of `n` (`str(n)`). -/
def decChars (n : Nat) : List Char := decCharsAux 20 n []

def decStr (n : Nat) : String := String.mk (decChars n)

/-- `str(IPv4Address(x))`: dotted-quad rendering. -/
def ipChars (x : Nat) : List Char :=
  decChars ((x >>> 24) &&& 255) ++ '.' :: decChars ((x >>> 16) &&& 255) ++
    '.' :: decChars ((x >>> 8) &&& 255) ++ '.' :: decChars (x &&& 255)

def ipStr (x : Nat) : String := String.mk (ipChars x)

def charsPrefix : List Char → List Char → Bool
  | [], _ => true
  | _ :: _, [] => false
  | p :: ps, c :: cs => p == c && charsPrefix ps cs

/-- Python `str.startswith`. -/
def startswith (s pre : String) : Bool := charsPrefix pre.toList s.toList

def isDigitChar (c : Char) : Bool := 48 ≤ c.toNat && c.toNat ≤ 57

def parseDecimal (cs : List Char) : Option Nat :=
  if cs.isEmpty then none
  else if cs.all isDigitChar then
    some (cs.foldl (fun a c => 10 * a + (c.toNat - 48)) 0)
  else none

/-- One dotted-quad octet: decimal digits, no leading zero, value ≤ 255
(the grammar `ipaddress._parse_octet` accepts). -/
def parseOctet (cs : List Char) : Option Nat :=
  match parseDecimal cs with
  | none => none
  | some v =>
    if decide (1 < cs.length) && cs.headD '0' == '0' then none
    else if v ≤ 255 then some v else none

/-- `ipaddress.IPv4Address(s)` for dotted-quad strings. -/
def parseIPv4Address (s : String) : Option Nat :=
  match (s.toList.splitOn '.').map parseOctet with
  | [some a, some b, some c, some d] => some (a <<< 24 ||| b <<< 16 ||| c <<< 8 ||| d)
  | _ => none

/-- `ipaddress.IPv4Network(s, strict=False)` restricted to the dotted-quad
`addr` and `addr/prefixlen` forms the scanner handles (the netmask and
integer forms of the full grammar are never exercised here).  The returned
address is not yet normalised; prefix-length strings may carry leading
zeros, as in CPython. -/
def parseIPv4Network (s : String) : Option (Nat × Nat) :=
  match s.toList.splitOn '/' with
  | [addr, pfx] =>
    match parseIPv4Address (String.mk addr), parseDecimal pfx with
    | some a, some p => if p ≤ 32 then some (a, p) else none
    | _, _ => none
  | [addr] => (parseIPv4Address (String.mk addr)).map (fun a => (a, 32))
  | _ => none

/-- `list(network.hosts())`: all usable hosts in ascending order — the block
without its network and broadcast addresses, except that /31 yields both
addresses and /32 yields the single address. -/
def hostsList (a p : Nat) : List Nat :=
  let na := netAddr a p
  if p ≥ 31 then (List.range (blockSize p)).map (na + ·)
  else (List.range (blockSize p - 2)).map (na + 1 + ·)

def containsSlash (s : String) : Bool := s.toList.contains '/'

end IPv4

/-! The data model of `scanner/base.py`. -/

inductive ScanType where
  | quick | deep | discovery | custom
deriving Repr, DecidableEq

inductive ScanStatus where
  | pending | running | completed | failed | cancelled
deriving Repr, DecidableEq

/-- The device categories of `device_fingerprint.DeviceType`. -/
inductive DeviceType where
  | router | switch | access_point | firewall | server | workstation
  | laptop | printer | camera | iot | smart_tv | game_console | mobile
  | nas | unknown
deriving Repr, DecidableEq

structure PortInfo where
  port : Nat
  protocol : String
  state : String
  service : Option String
  version : Option String
  banner : Option String
deriving Repr, DecidableEq

structure DeviceInfo where
  ip : String
  mac : Option String
  hostname : Option String
  vendor : Option String
  os : Option String
  os_accuracy : Option Nat
  device_type : Option DeviceType
  open_ports : List PortInfo
  last_seen : Nat
  is_up : Bool
deriving Repr, DecidableEq

structure ScanResult where
  scan_id : String
  target_range : String
  scan_type : ScanType
  status : ScanStatus
  devices : List DeviceInfo
  started_at : Option Nat
  completed_at : Option Nat
  error_message : Option String
  progress : Nat
  scanned_hosts : Nat
  total_hosts : Nat
deriving Repr, DecidableEq

namespace FakeNetworkGenerator

/-! `fake_network_generator.FakeNetworkGenerator`: deterministic simulated
scans.  All randomness is drawn from `random.Random(seed)` with
`seed = int.from_bytes(sha256(target.encode()).digest()[:4], 'big')`. -/

open PyRandom

/-- `DEVICE_TEMPLATES[t]["ports"]`.  Only the eight listed types carry
templates; the generator never instantiates any other type. -/
def templatePorts : DeviceType → List Nat
  | .router => [80, 443, 22, 23, 53]
  | .printer => [631, 9100, 80, 443]
  | .nas => [22, 80, 139, 445, 548, 2049, 5000, 5001]
  | .workstation => [135, 139, 445, 3389]
  | .server => [22, 80, 443, 3306, 5432]
  | .laptop => [22]
  | .iot => [80, 443, 1883, 8883]
  | .camera => [80, 554, 8080]
  | _ => []

/-- `DEVICE_TEMPLATES[t]["services"]`. -/
def templateServices : DeviceType → List (Nat × String)
  | .router => [(80, "http"), (443, "https"), (22, "ssh"), (23, "telnet"), (53, "dns")]
  | .printer => [(631, "ipp"), (9100, "jetdirect"), (80, "http"), (443, "https")]
  | .nas => [(22, "ssh"), (80, "http"), (139, "netbios-ssn"), (445, "microsoft-ds"),
             (548, "afp"), (2049, "nfs"), (5000, "upnp"), (5001, "commplex-link")]
  | .workstation => [(135, "msrpc"), (139, "netbios-ssn"), (445, "microsoft-ds"),
                     (3389, "ms-wbt-server")]
  | .server => [(22, "ssh"), (80, "http"), (443, "https"), (3306, "mysql"),
                (5432, "postgresql")]
  | .laptop => [(22, "ssh")]
  | .iot => [(80, "http"), (443, "https"), (1883, "mqtt"), (8883, "secure-mqtt")]
  | .camera => [(80, "http"), (554, "rtsp"), (8080, "http-proxy")]
  | _ => []

/-- `template['services'].get(port, "unknown")`. -/
def servicesGet (t : DeviceType) (p : Nat) : String :=
  ((templateServices t).lookup p).getD ("unknown")

/-- `DEVICE_TEMPLATES[t]["hostname_prefix"]`. -/
def hostnameStem : DeviceType → String
  | .router => "router"
  | .printer => "printer"
  | .nas => "nas"
  | .workstation => "workstation"
  | .server => "server"
  | .laptop => "laptop"
  | .iot => "iot-device"
  | .camera => "camera"
  | _ => ""

/-- `DEVICE_TEMPLATES[t]["os"]`. -/
def templateOs : DeviceType → Option String
  | .router => some ("Linux 3.x - 4.x")
  | .nas => some ("Linux 4.x")
  | .workstation => some ("Windows 10")
  | .server => some ("Ubuntu Linux")
  | .laptop => some ("macOS")
  | _ => none

/-- `MAC_VENDORS`, in dict insertion order (`list(...)` preserves it). -/
def macVendors : List (String × String) :=
  [("00:1A:70", "Netgear"), ("00:11:22", "Cisco"), ("00:50:56", "VMware"),
   ("08:00:27", "VirtualBox"), ("00:0C:29", "VMware"), ("00:16:3E", "Xen"),
   ("52:54:00", "QEMU"), ("AC:DE:48", "TP-Link"), ("B8:27:EB", "Raspberry Pi"),
   ("DC:A6:32", "Raspberry Pi")]

def hexDigitChar (d : Nat) : Char := Char.ofNat (if d < 10 then 48 + d else 55 + d)

/-- `f'{n:02X}'` for a byte. -/
def hexByte (n : Nat) : String := String.mk [hexDigitChar (n / 16), hexDigitChar (n % 16)]

/-- `_generate_mac`: a vendor prefix drawn with `choice`, then three random
bytes rendered as uppercase hex joined by colons. -/
def generate_mac (st : RandState) : String × RandState :=
  let q0 := choiceD (macVendors.map Prod.fst) ("") st
  let q1 := randint 0 255 q0.2
  let q2 := randint 0 255 q1.2
  let q3 := randint 0 255 q2.2
  (q0.1 ++ ":" ++ hexByte q1.1 ++ ":" ++ hexByte q2.1 ++ ":" ++ hexByte q3.1, q3.2)

/-- `_get_vendor_from_mac`: look up the first 8 characters in `MAC_VENDORS`. -/
def get_vendor_from_mac (mac : String) : String :=
  ((macVendors.lookup (mac.take 8))).getD ("Unknown")

/-- `f"{prefix}-{index:03d}"` (indices here are below 1000). -/
def pad3 (n : Nat) : String :=
  if n < 10 then ("00") ++ IPv4.decStr n
  else if n < 100 then ("0") ++ IPv4.decStr n
  else IPv4.decStr n

def insertSorted (x : Nat) : List Nat → List Nat
  | [] => [x]
  | y :: ys => if x ≤ y then x :: y :: ys else y :: insertSorted x ys

/-- `sorted(selected_ports)`; the selected ports are distinct, so any sorting
algorithm produces the same list as Python's. -/
def sortNat : List Nat → List Nat
  | [] => []
  | x :: xs => insertSorted x (sortNat xs)

/-- The double literal `0.1` (`ofRat` rounds 1/10 correctly). -/
def tenth : F64.D := F64.ofRat 1 10

/-- The per-class device-type pools and weights of `_select_device_types`,
with the router removed as in `available_types` (dict order preserved):
192.168.x.x → home, 10.x.x.x → enterprise, otherwise small office. -/
def availTypes (naStr : String) : List DeviceType × List F64.D :=
  if IPv4.startswith naStr ("192.168.") then
    ([.laptop, .workstation, .printer, .iot, .camera, .nas],
     [F64.ofRat 4 10, F64.ofRat 2 10, F64.ofRat 3 10, F64.ofRat 4 10,
      F64.ofRat 2 10, F64.ofRat 1 10])
  else if IPv4.startswith naStr ("10.") then
    ([.server, .workstation, .printer, .nas, .laptop, .iot],
     [F64.ofRat 5 10, F64.ofRat 6 10, F64.ofRat 4 10, F64.ofRat 3 10,
      F64.ofRat 3 10, F64.ofRat 1 10])
  else
    ([.workstation, .laptop, .server, .printer, .nas, .iot],
     [F64.ofRat 5 10, F64.ofRat 4 10, F64.ofRat 3 10, F64.ofRat 4 10,
      F64.ofRat 2 10, F64.ofRat 2 10])

def chooseTypes (avail : List DeviceType) (ws : List F64.D) (st : RandState) :
    Nat → List DeviceType × RandState
  | 0 => ([], st)
  | n + 1 =>
    let q := choicesOne DeviceType.unknown avail ws st
    let rest := chooseTypes avail ws q.2 n
    (q.1 :: rest.1, rest.2)

/-- `_select_device_types`: always a router first, then `count - 1` weighted
choices from the class pool. -/
def select_device_types (naStr : String) (count : Nat) (st : RandState) :
    List DeviceType × RandState :=
  let p := availTypes naStr
  let q := chooseTypes p.1 p.2 st (count - 1)
  (DeviceType.router :: q.1, q.2)

/-- The `DeviceInfo(...)` constructor call at the end of `_generate_device`:
every informative field is conditional on the up/down draw. -/
def mkDevice (ipN : Nat) (dtype : DeviceType) (now : Nat) (mac hostname vendor : String)
    (openPorts : List PortInfo) (osAcc : Option Nat) (isUp : Bool) : DeviceInfo :=
  ⟨IPv4.ipStr ipN,
   if isUp then some mac else none,
   if isUp then some hostname else none,
   if isUp then some vendor else none,
   if isUp then templateOs dtype else none,
   osAcc,
   some (if isUp then dtype else DeviceType.unknown),
   if isUp then openPorts else [],
   now,
   isUp⟩

/-- `_generate_device`, in the exact order the Python draws randomness:
MAC (one `choice` and three `randint`), port count, port sample, the
`random() > 0.1` up/down draw, and an OS-accuracy `randint` only when the
device is up and its template has an OS. -/
def generate_device (ipN : Nat) (dtype : DeviceType) (index now : Nat)
    (st : RandState) : DeviceInfo × RandState :=
  let ports := templatePorts dtype
  let qm := generate_mac st
  let vendor := get_vendor_from_mac qm.1
  let hostname := hostnameStem dtype ++ "-" ++ pad3 index
  let qn := randint (max 1 (ports.length / 2)) ports.length qm.2
  let qs := sample 0 ports qn.1 qn.2
  let openPorts := (sortNat qs.1).map fun p =>
    PortInfo.mk p ("tcp") ("open") (some (servicesGet dtype p)) none none
  let qr := randomM qs.2
  let isUp := F64.lt tenth (F64.ofM53 qr.1)
  let qa : Option Nat × RandState :=
    if isUp && (templateOs dtype).isSome then
      ((some (randint 80 95 qr.2).1), (randint 80 95 qr.2).2)
    else (none, qr.2)
  (mkDevice ipN dtype now qm.1 hostname vendor openPorts qa.1 isUp, qa.2)

/-- `enumerate(zip(selected_ips, device_types), 1)` driving `_generate_device`. -/
def genDevices (now : Nat) (st : RandState) (i : Nat) :
    List (Nat × DeviceType) → List DeviceInfo × RandState
  | [] => ([], st)
  | (ip, t) :: rest =>
    let q := generate_device ip t i now st
    let qs := genDevices now q.2 (i + 1) rest
    (q.1 :: qs.1, qs.2)

/-- `_generate_seed`: first 4 bytes of the SHA-256 digest of the target. -/
def generate_seed (target : String) : Nat := Sha256.firstWord (strBytes target)

/-- The device-production stage of `scan_network`: pick the host IPs, pick
the device types, generate the devices.  Returns the devices, the number of
selected IPs (`scanned_hosts`) and the final generator state. -/
def scan_devices (naStr : String) (hosts : List Nat) (dc now : Nat)
    (st : RandState) : List DeviceInfo × Nat × RandState :=
  let qi := sample 0 hosts (min dc hosts.length) st
  let qt := select_device_types naStr dc qi.2
  let g := genDevices now qt.2 1 (List.zip qi.1 qt.1)
  (g.1, qi.1.length, g.2)

/-- The successful branch of `scan_network` on a parsed target. -/
def scan_body (target : String) (a p : Nat) (scanType : ScanType)
    (scanId : Option String) (now : Nat) : ScanResult :=
  let na := IPv4.netAddr a p
  let hosts := IPv4.hostsList a p
  let rng := seedState (generate_seed target)
  let naStr := IPv4.ipStr na
  let mm : Nat × Nat :=
    if IPv4.startswith naStr ("10.") then (5, 20)
    else if IPv4.startswith naStr ("192.168.") then (3, 15)
    else (4, 18)
  let qd := randint mm.1 mm.2 rng
  let sd := scan_devices naStr hosts qd.1 now qd.2
  { scan_id := scanId.getD ("fake-scan-" ++ IPv4.decStr (generate_seed target)),
    target_range := target,
    scan_type := scanType,
    status := .completed,
    devices := sd.1,
    started_at := some (now - 2),
    completed_at := some now,
    error_message := none,
    progress := 100,
    scanned_hosts := sd.2.1,
    total_hosts := hosts.length }

/-- `FakeNetworkGenerator.scan_network`.  `now` stands for `datetime.now()`;
a parse failure of the target propagates as the `ValueError` does.  The
simulated delay (`_simulate_scan_progress`) only sleeps and is dropped. -/
def scan_network (target : String) (scanType : ScanType) (scanId : Option String)
    (now : Nat) : Except String ScanResult :=
  match IPv4.parseIPv4Network target with
  | none => .error ("invalid network")
  | some (a, p) => .ok (scan_body target a p scanType scanId now)


/-- The device fields the determinism claim compares. -/
def deviceContent (d : DeviceInfo) :
    String × Option String × Option String × Option DeviceType ×
      List (Nat × Option String) × Bool :=
  (d.ip, d.mac, d.vendor, d.device_type,
   d.open_ports.map (fun p => (p.port, p.service)), d.is_up)

/-- The generated content of a scan outcome (`none` for the error case). -/
def scanContent (r : Except String ScanResult) :
    Option (List (String × Option String × Option String × Option DeviceType ×
      List (Nat × Option String) × Bool)) :=
  match r with
  | .ok res => some (res.devices.map deviceContent)
  | .error _ => none

end FakeNetworkGenerator

namespace NetworkValidator

/-! `network_validator.NetworkValidator`.  The spec names the three failure
categories of its single exception type `InvalidFormat`, `NotPrivate` and
`TooLarge`; the embedding distinguishes them as constructors.  IPv4 only: the
five allowed ranges are IPv4 ranges and every target the claims quantify over
is an IPv4 literal. -/

inductive VError where
  | invalidFormat | notPrivate | tooLarge
deriving Repr, DecidableEq

inductive Validated where
  | network (a p : Nat)
  | address (a : Nat)
deriving Repr, DecidableEq

/-- `PRIVATE_NETWORKS ++ ADDITIONAL_ALLOWED` as (network address, prefix)
pairs: 10.0.0.0/8, 172.16.0.0/12, 192.168.0.0/16, 127.0.0.0/8,
169.254.0.0/16. -/
def allowedRanges : List (Nat × Nat) :=
  [(167772160, 8), (2886729728, 12), (3232235520, 16),
   (2130706432, 8), (2851995648, 16)]

def rangeLo (r : Nat × Nat) : Nat := r.1

def rangeHi (r : Nat × Nat) : Nat := r.1 + IPv4.blockSize r.2 - 1

/-- `ip_obj in network`: network address ≤ ip ≤ broadcast address. -/
def inRange (r : Nat × Nat) (x : Nat) : Bool :=
  rangeLo r ≤ x && x ≤ rangeHi r

/-- `is_private_ip`: membership in any of the five ranges. -/
def is_private_ip (x : Nat) : Bool := allowedRanges.any (fun r => inRange r x)

/-- `_is_subnet_of`: compare network and broadcast addresses. -/
def is_subnet_of (na p : Nat) (r : Nat × Nat) : Bool :=
  rangeLo r ≤ na && IPv4.bcast na p ≤ rangeHi r

/-- `is_private_network` on a parsed network (the Python re-parses the target
string with `strict=False`, hence the normalisation): a subnet of one of the
allowed ranges, or — when the address count is within the limit — every
usable host individually private. -/
def is_private_network (a p maxSize : Nat) : Bool :=
  let na := IPv4.netAddr a p
  allowedRanges.any (fun r => is_subnet_of na p r) ||
    (if IPv4.blockSize p ≤ maxSize then (IPv4.hostsList a p).all is_private_ip
     else false)

def MAX_NETWORK_SIZE : Nat := 256

/-- `_validate_network`: size check first (`num_addresses`), then the privacy
check; success returns the parsed (normalised) network. -/
def validate_network (a p maxSize : Nat) : Except VError Validated :=
  if IPv4.blockSize p > maxSize then .error .tooLarge
  else if ¬ is_private_network a p maxSize then .error .notPrivate
  else .ok (.network (IPv4.netAddr a p) p)

/-- `_validate_ip`. -/
def validate_ip (a : Nat) : Except VError Validated :=
  if ¬ is_private_ip a then .error .notPrivate else .ok (.address a)

/-- `NetworkValidator.validate`: dispatch on `"/" in target`, parse, then
validate as network or single address; parse failures are `InvalidFormat`. -/
def validate (target : String) (maxSize : Nat) : Except VError Validated :=
  if IPv4.containsSlash target then
    match IPv4.parseIPv4Network target with
    | none => .error .invalidFormat
    | some (a, p) => validate_network a p maxSize
  else
    match IPv4.parseIPv4Address target with
    | none => .error .invalidFormat
    | some a => validate_ip a

/-- Spec-side reading of "fully contained in a private/loopback/link-local
range": every address of the (normalised) block is in one of the five
ranges. -/
def specAllPrivate (a p : Nat) : Prop :=
  ∀ x, IPv4.netAddr a p ≤ x → x ≤ IPv4.bcast a p → is_private_ip x = true

end NetworkValidator

namespace DeviceFingerprinter

/-! `device_fingerprint.DeviceFingerprinter._identify_type` and
`_matches_signature`, on a device's open-port numbers and detected service
names (`{p.port for p in device.open_ports}` / `{p.service ...if p.service}`).
Sets are modelled as lists; only membership and non-empty intersection are
used. -/

/-- `DEVICE_SIGNATURES[t]["required_any"]`. -/
def requiredAny : String → List Nat
  | "router" => [80, 443, 8080]
  | "printer" => [515, 631, 9100]
  | "camera" => [554, 8554]
  | "nas" => [139, 445, 548]
  | "iot" => [1883, 8883, 5683]
  | _ => []

/-- `DEVICE_SIGNATURES[t]["services"]` (absent entries give `[]`). -/
def sigServices : String → List String
  | "printer" => ["lpd", "ipp", "jetdirect"]
  | "camera" => ["rtsp"]
  | "nas" => ["smb", "afp", "ftp"]
  | "iot" => ["mqtt", "coap"]
  | _ => []

def intersects (xs ys : List Nat) : Bool := xs.any ys.contains

def intersectsS (xs ys : List String) : Bool := xs.any ys.contains

/-- `_matches_signature`: fail when none of the required ports is open;
otherwise succeed on a service match or on the required-port hit itself. -/
def matches_signature (sig : String) (openPorts : List Nat)
    (services : List String) : Bool :=
  let req := requiredAny sig
  if !req.isEmpty && !intersects openPorts req then false
  else if !(sigServices sig).isEmpty && intersectsS services (sigServices sig) then true
  else if !req.isEmpty && intersects openPorts req then true
  else false

/-- `_identify_type`: the ordered rule chain (printer, camera, remote-desktop
workstation, NAS, NetBIOS workstation, IoT, gateway-address router, server
ports, SMB fallback, port-count fallback).  `ipEndsGateway` is
`device.ip.endswith(".1") or device.ip.endswith(".254")`. -/
def ipEndsGateway (ip : String) : Bool :=
  let cs := ip.toList
  cs.reverse.take 2 == ['1', '.'] || cs.reverse.take 4 == ['4', '5', '2', '.']

def identify_type (ip : String) (openPorts : List Nat) (services : List String) :
    DeviceType :=
  if openPorts.isEmpty then .unknown
  else if matches_signature ("printer") openPorts services then .printer
  else if matches_signature ("camera") openPorts services then .camera
  else if openPorts.contains 3389 || openPorts.contains 5900 then .workstation
  else if matches_signature ("nas") openPorts services then .nas
  else if intersects openPorts [135, 139, 445] && openPorts.contains 135 then .workstation
  else if matches_signature ("iot") openPorts services then .iot
  else if ipEndsGateway ip && (openPorts.contains 80 || openPorts.contains 443) then .router
  else if 3 ≤ (openPorts.filter (fun p => [21, 22, 25, 53, 80, 110, 143, 443, 993, 995].contains p)).eraseDups.length then .server
  else if intersects openPorts [135, 139, 445] then .workstation
  else if 5 < openPorts.eraseDups.length then .server
  else if 0 < openPorts.eraseDups.length then .workstation
  else .unknown

end DeviceFingerprinter

namespace ScanOrchestrator

/-! `orchestrator.ScanOrchestrator`.  The mutable orchestrator fields
(`_scan_history`, `_current_scan`, `_last_scan_time`), the scans table of the
storage collaborator and the persisted mode preference form the state.
`start_scan` is one state transition (its awaits do not interleave with other
orchestrator calls in the claims considered); the detached background unit
(`_run_scan_background`) is a second transition taking the scanner's outcome
— an exception or a `ScanResult` — as input.  `datetime.utcnow()` and
`uuid.uuid4()` become explicit parameters. -/

/-- The §7 failure kinds `start_scan` raises synchronously: `PermissionError`
for missing consent, the propagated `NetworkValidationError`, and the three
`RuntimeError` cases distinguished by their message. -/
inductive OrchError where
  | consentRequired
  | validation (e : NetworkValidator.VError)
  | scanInProgress
  | cooldownActive
  | scanningDisabled
deriving Repr, DecidableEq

inductive Mode where
  | training | live
deriving Repr, DecidableEq

structure Config where
  max_network_size : Nat
  scan_cooldown : Nat
  enable_real_scanning : Bool
deriving Repr, DecidableEq

/-- The default settings of `config.py`. -/
def defaultConfig : Config := ⟨256, 60, true⟩

/-- One row of the scans table (`save_scan` keyword for keyword); the
`results_summary` JSON blob is opaque to every caller and is modelled as the
`ScanResult` it serialises (`none` for the initial save and for the
error-path blob). -/
structure SavedScan where
  scan_id : String
  scan_type : ScanType
  status : ScanStatus
  target_range : String
  port_range : Option String
  started_at : Option Nat
  completed_at : Option Nat
  progress : Nat
  scanned_hosts : Nat
  total_hosts : Nat
  results_summary : Option ScanResult
deriving Repr, DecidableEq

structure OrchState where
  scan_history : List (String × ScanResult)
  current_scan : Option String
  last_scan_time : Option Nat
  datastore : List SavedScan
  mode_pref : Option Mode
deriving Repr, DecidableEq

/-- `self._scan_history.get(k)`. -/
def lookupA (h : List (String × ScanResult)) (k : String) : Option ScanResult :=
  (h.find? (fun kv => kv.1 == k)).map Prod.snd

/-- `self._scan_history[k] = v` (dict assignment: update or insert). -/
def setA (h : List (String × ScanResult)) (k : String) (v : ScanResult) :
    List (String × ScanResult) :=
  if h.any (fun kv => kv.1 == k) then
    h.map (fun kv => if kv.1 == k then (k, v) else kv)
  else h ++ [(k, v)]

/-- `save_scan`: update the row with this id or insert a new one. -/
def save_scan (ds : List SavedScan) (row : SavedScan) : List SavedScan :=
  if ds.any (fun r => r.scan_id == row.scan_id) then
    ds.map (fun r => if r.scan_id == row.scan_id then row else r)
  else ds ++ [row]

/-- `_get_application_mode`: the persisted preference, defaulting to
training. -/
def get_application_mode (st : OrchState) : Mode := st.mode_pref.getD .training

/-- `_check_rate_limits`: `ScanInProgress` only when the tracked current scan
exists in the history with status RUNNING; then the cooldown window against
the last completion time. -/
def check_rate_limits (cfg : Config) (st : OrchState) (now : Nat) :
    Option OrchError :=
  match st.current_scan with
  | some cid =>
    match lookupA st.scan_history cid with
    | some scan =>
      if scan.status = ScanStatus.running then some .scanInProgress
      else checkCooldown cfg st now
    | none => checkCooldown cfg st now
  | none => checkCooldown cfg st now
where
  checkCooldown (cfg : Config) (st : OrchState) (now : Nat) : Option OrchError :=
    match st.last_scan_time with
    | some t => if now - t < cfg.scan_cooldown then some .cooldownActive else none
    | none => none

/-- `start_scan`, in source order: read the mode, check consent, validate the
target, check rate limits, check the live-mode switch, then create the
PENDING record, mark it current, persist the initial row and schedule the
background unit.  `newId` stands for `uuid.uuid4()`. -/
def start_scan (cfg : Config) (st : OrchState) (target : String)
    (scanType : ScanType) (portRange : Option String) (userConsent : Bool)
    (now : Nat) (newId : String) : Except OrchError ScanResult × OrchState :=
  let mode := get_application_mode st
  if !userConsent then (.error .consentRequired, st)
  else
    match NetworkValidator.validate target cfg.max_network_size with
    | .error e => (.error (.validation e), st)
    | .ok _ =>
      match check_rate_limits cfg st now with
      | some e => (.error e, st)
      | none =>
        if mode = .live && !cfg.enable_real_scanning then
          (.error .scanningDisabled, st)
        else
          let result : ScanResult :=
            { scan_id := newId, target_range := target, scan_type := scanType,
              status := .pending, devices := [], started_at := none,
              completed_at := none, error_message := none, progress := 0,
              scanned_hosts := 0, total_hosts := 0 }
          let row : SavedScan :=
            { scan_id := newId, scan_type := scanType, status := .pending,
              target_range := target, port_range := portRange,
              started_at := none, completed_at := none, progress := 0,
              scanned_hosts := 0, total_hosts := 0, results_summary := none }
          (.ok result,
           { st with
              scan_history := setA st.scan_history newId result,
              current_scan := some newId,
              datastore := save_scan st.datastore row })

/-- `_run_scan_background`: the try-branch replaces the history entry with
the scanner's result, persists it, clears the current-scan marker and stamps
the completion time; the except-branch marks the existing record FAILED with
the error message, persists, and clears the marker (without stamping the
time).  `outcome` is what `scanner.scan_network(...)` did: a result or a
raised exception's message. -/
def run_scan_background (st : OrchState) (scanId : String)
    (portRange : Option String) (outcome : Except String ScanResult)
    (now : Nat) : OrchState :=
  match outcome with
  | .ok result =>
    let hist := if (lookupA st.scan_history scanId).isSome then
        setA st.scan_history scanId result
      else st.scan_history
    let row : SavedScan :=
      { scan_id := scanId, scan_type := result.scan_type,
        status := result.status, target_range := result.target_range,
        port_range := portRange, started_at := result.started_at,
        completed_at := result.completed_at, progress := result.progress,
        scanned_hosts := result.scanned_hosts,
        total_hosts := result.total_hosts, results_summary := some result }
    { st with scan_history := hist, datastore := save_scan st.datastore row,
              current_scan := none, last_scan_time := some now }
  | .error msg =>
    match lookupA st.scan_history scanId with
    | some old =>
      let failed : ScanResult :=
        { old with status := .failed,
                   error_message := some ("Scan error: " ++ msg),
                   completed_at := some now }
      let row : SavedScan :=
        { scan_id := scanId, scan_type := failed.scan_type,
          status := .failed, target_range := failed.target_range,
          port_range := portRange, started_at := failed.started_at,
          completed_at := failed.completed_at, progress := failed.progress,
          scanned_hosts := failed.scanned_hosts,
          total_hosts := failed.total_hosts, results_summary := none }
      { st with scan_history := setA st.scan_history scanId failed,
                datastore := save_scan st.datastore row,
                current_scan := none }
    | none => { st with current_scan := none }

/-- `get_scan_status` in training mode (no nmap scanner is alive): the
in-memory history, then the scans table. -/
def get_scan_status (st : OrchState) (scanId : String) : Option ScanResult :=
  match lookupA st.scan_history scanId with
  | some r => some r
  | none =>
    match st.datastore.find? (fun r => r.scan_id == scanId) with
    | some row => some (rowToResult row)
    | none => none
where
  /-- `_scan_dict_to_result` restricted to the fields the claims read. -/
  rowToResult (row : SavedScan) : ScanResult :=
    { scan_id := row.scan_id, target_range := row.target_range,
      scan_type := row.scan_type, status := row.status,
      devices := (row.results_summary.map (fun r => r.devices)).getD [],
      started_at := row.started_at, completed_at := row.completed_at,
      error_message := none, progress := row.progress,
      scanned_hosts := row.scanned_hosts, total_hosts := row.total_hosts }

end ScanOrchestrator

namespace NetworkValidator

/-! Lemmas for the validator characterisation (claim C1). -/

theorem blockSize_pos (p : Nat) : 0 < IPv4.blockSize p :=
  Nat.pos_pow_of_pos _ (by decide)

theorem netAddr_mod (a p : Nat) : IPv4.netAddr a p % IPv4.blockSize p = 0 := by
  have h := Nat.div_add_mod a (IPv4.blockSize p)
  have : IPv4.netAddr a p = IPv4.blockSize p * (a / IPv4.blockSize p) := by
    unfold IPv4.netAddr; omega
  rw [this]
  exact Nat.mul_mod_right _ _

theorem netAddr_le (a p : Nat) : IPv4.netAddr a p ≤ a := by
  unfold IPv4.netAddr; omega

theorem netAddr_idem (a p : Nat) :
    IPv4.netAddr (IPv4.netAddr a p) p = IPv4.netAddr a p := by
  unfold IPv4.netAddr
  have := netAddr_mod a p
  unfold IPv4.netAddr at this
  omega

/-- `blockSize p ≤ 256` forces `24 ≤ p` (for `p ≤ 32`). -/
theorem le_256_imp (p : Nat) (hp : p ≤ 32) (h : IPv4.blockSize p ≤ 256) : 24 ≤ p := by
  by_contra hlt
  have h9 : 32 - p ≥ 9 := by omega
  have : (2 : Nat) ^ 9 ≤ 2 ^ (32 - p) := Nat.pow_le_pow_right (by decide) h9
  unfold IPv4.blockSize at h
  omega

/-- Usable hosts lie inside the block. -/
theorem hosts_subset (a p : Nat) (x : Nat) (hx : x ∈ IPv4.hostsList a p) :
    IPv4.netAddr a p ≤ x ∧ x ≤ IPv4.bcast a p := by
  have hB := blockSize_pos p
  unfold IPv4.hostsList at hx
  unfold IPv4.bcast
  split at hx <;>
  · simp only [List.mem_map, List.mem_range] at hx
    obtain ⟨i, hi, rfl⟩ := hx
    omega

/-- Interval form of the hosts list for prefixes up to /30. -/
theorem mem_hosts_iff (a p : Nat) (hp : p ≤ 30) (x : Nat) :
    x ∈ IPv4.hostsList a p ↔
      IPv4.netAddr a p + 1 ≤ x ∧ x ≤ IPv4.netAddr a p + IPv4.blockSize p - 2 := by
  have hB : 4 ≤ IPv4.blockSize p := by
    have : (2 : Nat) ^ 2 ≤ 2 ^ (32 - p) := Nat.pow_le_pow_right (by decide) (by omega)
    unfold IPv4.blockSize; omega
  unfold IPv4.hostsList
  have : ¬ p ≥ 31 := by omega
  simp only [this, if_false, List.mem_map, List.mem_range]
  constructor
  · rintro ⟨i, hi, rfl⟩; omega
  · rintro ⟨h1, h2⟩; exact ⟨x - IPv4.netAddr a p - 1, by omega, by omega⟩

theorem mem_allowed_of_private (x : Nat) (h : is_private_ip x = true) :
    ∃ r ∈ allowedRanges, inRange r x = true := by
  simpa [is_private_ip, List.any_eq_true] using h

theorem private_of_mem_allowed (x : Nat) (r : Nat × Nat) (hr : r ∈ allowedRanges)
    (hx : inRange r x = true) : is_private_ip x = true := by
  simp only [is_private_ip, List.any_eq_true]
  exact ⟨r, hr, hx⟩

theorem inRange_iff (r : Nat × Nat) (x : Nat) :
    inRange r x = true ↔ rangeLo r ≤ x ∧ x ≤ rangeHi r := by
  simp [inRange]

/-- The five ranges are pairwise separated by gaps. -/
theorem ranges_gap : ∀ r ∈ allowedRanges, ∀ s ∈ allowedRanges, r ≠ s →
    rangeHi r + 1 < rangeLo s ∨ rangeHi s + 1 < rangeLo r := by decide

/-- Each range is aligned at every width up to 2^16: its low end is a
multiple of `2^k` and its high end is one below a multiple of `2^k`. -/
theorem ranges_aligned : ∀ r ∈ allowedRanges, ∀ k < 17,
    rangeLo r % 2 ^ k = 0 ∧ rangeHi r % 2 ^ k = 2 ^ k - 1 := by decide

/-- A contiguous interval of individually-private addresses stays within the
single range containing its left end. -/
theorem chain (r : Nat × Nat) (hr : r ∈ allowedRanges) (lo hi : Nat)
    (h0 : inRange r lo = true)
    (hall : ∀ x, lo ≤ x → x ≤ hi → is_private_ip x = true) :
    ∀ d, lo + d ≤ hi → inRange r (lo + d) = true := by
  intro d
  induction d with
  | zero => intro _; simpa using h0
  | succ n ih =>
    intro hle
    have h1 : inRange r (lo + n) = true := ih (by omega)
    have h2 : is_private_ip (lo + (n + 1)) = true := hall _ (by omega) (by omega)
    obtain ⟨s, hs, hsx⟩ := mem_allowed_of_private _ h2
    by_cases hrs : s = r
    · subst hrs; exact hsx
    · exfalso
      rw [inRange_iff] at h1 hsx
      rcases ranges_gap r hr s hs (fun h => hrs h.symm) with hg | hg <;> omega

theorem add_mod_eq (na B c : Nat) (hmod : na % B = 0) (hc : c < B) :
    (na + c) % B = c := by
  rw [Nat.add_mod, hmod, Nat.zero_add, Nat.mod_eq_of_lt hc, Nat.mod_eq_of_lt hc]

/-- Abstract form of the alignment argument: an aligned block whose inner
interval `[na+1, na+B-2]` fits in an aligned range fits in it entirely. -/
theorem block_bounds (na B lo hi : Nat) (hB4 : 4 ≤ B)
    (hmod : na % B = 0) (hlo : lo % B = 0) (hhi : hi % B = B - 1)
    (h1 : lo ≤ na + 1) (h2 : na + B - 2 ≤ hi) :
    lo ≤ na ∧ na + B - 1 ≤ hi := by
  constructor
  · by_cases he : lo = na + 1
    · exfalso
      have hm := add_mod_eq na B 1 hmod (by omega)
      rw [← he, hlo] at hm
      omega
    · omega
  · by_cases he : hi = na + B - 2
    · exfalso
      have hm := add_mod_eq na B (B - 2) hmod (by omega)
      have hrew : na + (B - 2) = na + B - 2 := by omega
      rw [hrew, ← he, hhi] at hm
      omega
    · omega

/-- The key step behind the validator's host-by-host check: for a /24../30
block, if every usable host is private then the whole block (network and
broadcast addresses included) lies in a single allowed range. -/
theorem hosts_private_block (a p : Nat) (hp24 : 24 ≤ p) (hp30 : p ≤ 30)
    (hall : ∀ x, x ∈ IPv4.hostsList a p → is_private_ip x = true) :
    ∃ r ∈ allowedRanges,
      rangeLo r ≤ IPv4.netAddr a p ∧ IPv4.bcast a p ≤ rangeHi r := by
  have hB4 : 4 ≤ IPv4.blockSize p := by
    have : (2 : Nat) ^ 2 ≤ 2 ^ (32 - p) := Nat.pow_le_pow_right (by decide) (by omega)
    unfold IPv4.blockSize; omega
  have hmod : IPv4.netAddr a p % IPv4.blockSize p = 0 := netAddr_mod a p
  have hint : ∀ x, IPv4.netAddr a p + 1 ≤ x →
      x ≤ IPv4.netAddr a p + IPv4.blockSize p - 2 → is_private_ip x = true := by
    intro x h1 h2
    exact hall x ((mem_hosts_iff a p hp30 x).2 ⟨h1, h2⟩)
  have hfirst : is_private_ip (IPv4.netAddr a p + 1) = true := hint _ (by omega) (by omega)
  obtain ⟨r, hr, hr1⟩ := mem_allowed_of_private _ hfirst
  refine ⟨r, hr, ?_⟩
  have hlast : inRange r (IPv4.netAddr a p + IPv4.blockSize p - 2) = true := by
    have hch := chain r hr (IPv4.netAddr a p + 1)
      (IPv4.netAddr a p + IPv4.blockSize p - 2) hr1 hint
      (IPv4.blockSize p - 3) (by omega)
    have heq : IPv4.netAddr a p + 1 + (IPv4.blockSize p - 3) =
        IPv4.netAddr a p + IPv4.blockSize p - 2 := by omega
    rwa [heq] at hch
  have halign := ranges_aligned r hr (32 - p) (by omega)
  rw [inRange_iff] at hr1 hlast
  have hb := block_bounds (IPv4.netAddr a p) (IPv4.blockSize p)
    (rangeLo r) (rangeHi r) hB4 hmod halign.1 halign.2 hr1.1 hlast.2
  exact ⟨hb.1, by unfold IPv4.bcast; omega⟩

end NetworkValidator
namespace NetworkValidator

theorem bcast_netAddr (a p : Nat) : IPv4.bcast (IPv4.netAddr a p) p = IPv4.bcast a p := by
  unfold IPv4.bcast
  rw [netAddr_idem]

/-- Subnet-of-an-allowed-range implies the spec-side predicate. -/
theorem subnet_specAll (a p : Nat) (r : Nat × Nat) (hr : r ∈ allowedRanges)
    (h : is_subnet_of (IPv4.netAddr a p) p r = true) : specAllPrivate a p := by
  intro x h1 h2
  unfold is_subnet_of at h
  rw [bcast_netAddr] at h
  simp only [Bool.and_eq_true, decide_eq_true_eq] at h
  exact private_of_mem_allowed x r hr ((inRange_iff r x).2 ⟨by omega, by omega⟩)

/-- For /31 and /32 the hosts list covers the whole block. -/
theorem mem_hosts_wide (a p : Nat) (hp : 31 ≤ p) (x : Nat)
    (h1 : IPv4.netAddr a p ≤ x) (h2 : x ≤ IPv4.bcast a p) :
    x ∈ IPv4.hostsList a p := by
  have hB := blockSize_pos p
  unfold IPv4.hostsList
  simp only [hp, if_pos, List.mem_map, List.mem_range]
  unfold IPv4.bcast at h2
  exact ⟨x - IPv4.netAddr a p, by omega, by omega⟩

/-- Characterisation of `is_private_network` at the default maximum: for a
block of at most 256 addresses it holds iff every address of the block is
private. -/
theorem is_private_network_iff (a p : Nat) (hp : p ≤ 32)
    (hsz : IPv4.blockSize p ≤ 256) :
    (is_private_network a p 256 = true ↔ specAllPrivate a p) := by
  constructor
  · intro h
    unfold is_private_network at h
    simp only [Bool.or_eq_true, List.any_eq_true] at h
    rcases h with ⟨r, hr, hsub⟩ | h
    · exact subnet_specAll a p r hr hsub
    · rw [if_pos hsz, List.all_eq_true] at h
      by_cases hp31 : 31 ≤ p
      · intro x h1 h2
        exact h x (mem_hosts_wide a p hp31 x h1 h2)
      · have hp24 : 24 ≤ p := le_256_imp p hp hsz
        obtain ⟨r, hr, hlo, hhi⟩ := hosts_private_block a p hp24 (by omega)
          (fun x hx => h x hx)
        intro x h1 h2
        exact private_of_mem_allowed x r hr ((inRange_iff r x).2 ⟨by omega, by omega⟩)
  · intro h
    unfold is_private_network
    simp only [Bool.or_eq_true, List.any_eq_true]
    right
    rw [if_pos hsz, List.all_eq_true]
    intro x hx
    obtain ⟨h1, h2⟩ := hosts_subset a p x hx
    exact h x h1 h2

theorem parse_network_le (s : String) (a p : Nat)
    (h : IPv4.parseIPv4Network s = some (a, p)) : p ≤ 32 := by
  unfold IPv4.parseIPv4Network at h
  repeat' split at h
  all_goals simp_all
  omega

/-- The full validate-path characterisation for CIDR inputs (claim C1). -/
theorem validate_cidr_cases (t : String) (a p : Nat)
    (hs : IPv4.containsSlash t = true)
    (hparse : IPv4.parseIPv4Network t = some (a, p)) :
    ((∃ v, validate t 256 = .ok v) ↔ (specAllPrivate a p ∧ IPv4.blockSize p ≤ 256))
    ∧ (256 < IPv4.blockSize p → validate t 256 = .error VError.tooLarge)
    ∧ (IPv4.blockSize p ≤ 256 → ¬ specAllPrivate a p →
        validate t 256 = .error VError.notPrivate) := by
  have hp := parse_network_le t a p hparse
  have hval : validate t 256 = validate_network a p 256 := by
    unfold validate
    rw [if_pos hs, hparse]
  rw [hval]
  unfold validate_network
  by_cases hsz : IPv4.blockSize p ≤ 256
  · rw [if_neg (by omega)]
    have hiff := is_private_network_iff a p hp hsz
    by_cases hpriv : is_private_network a p 256 = true
    · have hspec := hiff.1 hpriv
      rw [if_neg (by simp [hpriv])]
      exact ⟨by simp [hspec, hsz], by omega, by intro _ hn; exact absurd hspec hn⟩
    · rw [if_pos (by simp [hpriv])]
      constructor
      · constructor
        · rintro ⟨v, hv⟩; cases hv
        · rintro ⟨hspec, -⟩; exact absurd (hiff.2 hspec) hpriv
      · exact ⟨by omega, fun _ _ => rfl⟩
  · rw [if_pos (by omega)]
    refine ⟨⟨?_, ?_⟩, fun _ => rfl, by omega⟩
    · rintro ⟨v, hv⟩; cases hv
    · rintro ⟨-, h⟩; omega

/-- Claim C10: a parsed CIDR is normalised (`strict=False`) and validated as
its containing network; parse success never yields `InvalidFormat`. -/
theorem validate_cidr_normalises (t : String) (a p : Nat)
    (hs : IPv4.containsSlash t = true)
    (hparse : IPv4.parseIPv4Network t = some (a, p)) :
    validate t 256 ≠ .error VError.invalidFormat
    ∧ validate t 256 = validate_network (IPv4.netAddr a p) p 256 := by
  have hval : validate t 256 = validate_network a p 256 := by
    unfold validate
    rw [if_pos hs, hparse]
  have hnorm : validate_network a p 256 = validate_network (IPv4.netAddr a p) p 256 := by
    unfold validate_network is_private_network
    rw [netAddr_idem]
    unfold IPv4.hostsList
    rw [netAddr_idem]
  constructor
  · rw [hval]
    unfold validate_network
    by_cases h1 : IPv4.blockSize p > 256
    · simp [h1]
    · by_cases h2 : is_private_network a p 256 = true <;> simp [h1, h2]
  · rw [hval, hnorm]

end NetworkValidator

namespace PyRandom

/-! Range and length facts about the `random.Random` methods, independent of
the concrete word stream. -/

theorem randbelowAux_lt (n k : Nat) (hn : 0 < n) :
    ∀ f st, (randbelowAux n k f st).1 < n := by
  intro f
  induction f with
  | zero => intro st; simpa [randbelowAux] using hn
  | succ m ih =>
    intro st
    unfold randbelowAux
    dsimp only []
    split
    · assumption
    · exact ih _

theorem randbelow_lt (n : Nat) (hn : 0 < n) (st : RandState) :
    (randbelow n st).1 < n := by
  unfold randbelow
  rw [if_neg (by omega)]
  exact randbelowAux_lt n _ hn _ _

theorem randint_mem (a b : Nat) (hab : a ≤ b) (st : RandState) :
    a ≤ (randint a b st).1 ∧ (randint a b st).1 ≤ b := by
  unfold randint
  dsimp only []
  have := randbelow_lt (b + 1 - a) (by omega) st
  omega

theorem samplePool_length (dflt : α) :
    ∀ (f : Nat) (pool : List α) (n i : Nat) (st : RandState) (acc : List α),
      ((samplePool dflt pool n i st acc f).1).length = acc.length + f := by
  intro f
  induction f with
  | zero => intro pool n i st acc; simp [samplePool]
  | succ m ih =>
    intro pool n i st acc
    unfold samplePool
    dsimp only []
    rw [ih]
    simp
    omega

theorem sampleSel_length (dflt : α) (pop : List α) (n : Nat) :
    ∀ (f : Nat) (selected : List Nat) (st : RandState) (acc : List α),
      ((sampleSel dflt pop n selected st acc f).1).length = acc.length + f := by
  intro f
  induction f with
  | zero => intro selected st acc; simp [sampleSel]
  | succ m ih =>
    intro selected st acc
    unfold sampleSel
    dsimp only []
    rw [ih]
    simp
    omega

theorem sample_length (dflt : α) (pop : List α) (k : Nat) (st : RandState) :
    ((sample dflt pop k st).1).length = k := by
  unfold sample
  dsimp only []
  split
  · simpa using samplePool_length dflt k pop pop.length 0 st []
  · simpa using sampleSel_length dflt pop pop.length k [] st []

end PyRandom

namespace FakeNetworkGenerator

theorem chooseTypes_length (avail : List DeviceType) (ws : List F64.D) :
    ∀ (n : Nat) (st : PyRandom.RandState), ((chooseTypes avail ws st n).1).length = n := by
  intro n
  induction n with
  | zero => intro st; simp [chooseTypes]
  | succ m ih =>
    intro st
    unfold chooseTypes
    dsimp only []
    simp [ih]

theorem select_device_types_eq (naStr : String) (count : Nat) (st : PyRandom.RandState) :
    (select_device_types naStr count st).1 =
      DeviceType.router :: (chooseTypes (availTypes naStr).1 (availTypes naStr).2 st (count - 1)).1 := rfl

theorem genDevices_length (now : Nat) :
    ∀ (pairs : List (Nat × DeviceType)) (st : PyRandom.RandState) (i : Nat),
      ((genDevices now st i pairs).1).length = pairs.length := by
  intro pairs
  induction pairs with
  | nil => intro st i; simp [genDevices]
  | cons hd tl ih =>
    intro st i
    obtain ⟨ip, t⟩ := hd
    unfold genDevices
    dsimp only []
    simp [ih]

/-- The reported type of a generated device is its template type when up and
UNKNOWN when down. -/
theorem generate_device_type (ipN : Nat) (t : DeviceType) (i now : Nat)
    (st : PyRandom.RandState) :
    (generate_device ipN t i now st).1.device_type =
      some (if (generate_device ipN t i now st).1.is_up then t else DeviceType.unknown) := rfl

/-- A device marked down carries none of the informative fields. -/
theorem generate_device_down (ipN : Nat) (t : DeviceType) (i now : Nat)
    (st : PyRandom.RandState)
    (h : (generate_device ipN t i now st).1.is_up = false) :
    (generate_device ipN t i now st).1.mac = none
    ∧ (generate_device ipN t i now st).1.hostname = none
    ∧ (generate_device ipN t i now st).1.vendor = none
    ∧ (generate_device ipN t i now st).1.os = none
    ∧ (generate_device ipN t i now st).1.os_accuracy = none
    ∧ (generate_device ipN t i now st).1.device_type = some DeviceType.unknown
    ∧ (generate_device ipN t i now st).1.open_ports = [] := by
  simp only [generate_device, mkDevice] at h ⊢
  simp only [h]
  simp

theorem generate_device_time (ipN : Nat) (t : DeviceType) (i now now' : Nat)
    (st : PyRandom.RandState) :
    deviceContent (generate_device ipN t i now st).1 =
        deviceContent (generate_device ipN t i now' st).1
    ∧ (generate_device ipN t i now st).2 = (generate_device ipN t i now' st).2 :=
  ⟨rfl, rfl⟩

theorem genDevices_time (now now' : Nat) :
    ∀ (pairs : List (Nat × DeviceType)) (st : PyRandom.RandState) (i : Nat),
      (genDevices now st i pairs).1.map deviceContent =
          (genDevices now' st i pairs).1.map deviceContent
      ∧ (genDevices now st i pairs).2 = (genDevices now' st i pairs).2 := by
  intro pairs
  induction pairs with
  | nil => intro st i; exact ⟨rfl, rfl⟩
  | cons hd tl ih =>
    intro st i
    obtain ⟨ip, t⟩ := hd
    unfold genDevices
    dsimp only []
    obtain ⟨h1, h2⟩ := generate_device_time ip t i now now' st
    rw [h2]
    obtain ⟨ih1, ih2⟩ := ih (generate_device ip t i now' st).2 (i + 1)
    exact ⟨by simp [h1, ih1], ih2⟩

end FakeNetworkGenerator

namespace FakeNetworkGenerator

theorem decChars_192 : IPv4.decChars 192 = ['1', '9', '2'] := by decide

theorem decChars_168 : IPv4.decChars 168 = ['1', '6', '8'] := by decide

/-- A network address with first octets 192.168 renders to a string that
starts with "192.168." but not with "10.". -/
theorem startswith_192168 (x : Nat) (h1 : (x >>> 24) &&& 255 = 192)
    (h2 : (x >>> 16) &&& 255 = 168) :
    IPv4.startswith (IPv4.ipStr x) ("192.168.") = true
    ∧ IPv4.startswith (IPv4.ipStr x) ("10.") = false := by
  unfold IPv4.startswith IPv4.ipStr IPv4.ipChars
  rw [h1, h2, decChars_192, decChars_168]
  constructor <;> rfl

theorem scan_devices_length (naStr : String) (hosts : List Nat) (dc now : Nat)
    (st : PyRandom.RandState) (hdc : 1 ≤ dc) :
    (scan_devices naStr hosts dc now st).1.length = min dc hosts.length := by
  unfold scan_devices
  dsimp only []
  rw [genDevices_length, List.length_zip, PyRandom.sample_length,
    select_device_types_eq]
  simp only [List.length_cons, chooseTypes_length]
  omega

theorem scan_devices_head (naStr : String) (hosts : List Nat) (dc now : Nat)
    (st : PyRandom.RandState) (hne : 1 ≤ min dc hosts.length) :
    ∃ d0, (scan_devices naStr hosts dc now st).1.head? = some d0
      ∧ d0 ∈ (scan_devices naStr hosts dc now st).1
      ∧ d0.device_type = some (if d0.is_up then DeviceType.router else DeviceType.unknown) := by
  unfold scan_devices
  dsimp only []
  rw [select_device_types_eq]
  have hlen : (PyRandom.sample 0 hosts (min dc hosts.length) st).1.length =
      min dc hosts.length := PyRandom.sample_length _ _ _ _
  obtain ⟨i0, tl, heq⟩ : ∃ i0 tl,
      (PyRandom.sample 0 hosts (min dc hosts.length) st).1 = i0 :: tl := by
    cases hcase : (PyRandom.sample 0 hosts (min dc hosts.length) st).1 with
    | nil => rw [hcase] at hlen; simp at hlen; omega
    | cons i0 tl => exact ⟨i0, tl, rfl⟩
  rw [heq]
  simp only [List.zip_cons_cons]
  unfold genDevices
  dsimp only []
  refine ⟨_, rfl, List.mem_cons_self _ _, ?_⟩
  exact generate_device_type _ _ _ _ _

end FakeNetworkGenerator

namespace ScanOrchestrator

theorem find_map_set (h : List (String × ScanResult)) (k : String) (v : ScanResult)
    (hany : h.any (fun kv => kv.1 == k) = true) :
    (h.map (fun kv => if kv.1 == k then (k, v) else kv)).find?
      (fun kv => kv.1 == k) = some (k, v) := by
  induction h with
  | nil => simp at hany
  | cons hd tl ih =>
    simp only [List.any_cons, Bool.or_eq_true] at hany
    by_cases hk : (hd.1 == k) = true
    · rw [List.map_cons, if_pos hk, List.find?_cons_of_pos _ (by simp)]
    · rw [List.map_cons, if_neg hk, List.find?_cons_of_neg _ (by simpa using hk)]
      exact ih (hany.resolve_left hk)

theorem find_app_new (h : List (String × ScanResult)) (k : String) (v : ScanResult)
    (hany : h.any (fun kv => kv.1 == k) = false) :
    (h ++ [(k, v)]).find? (fun kv => kv.1 == k) = some (k, v) := by
  induction h with
  | nil => rw [List.nil_append, List.find?_cons_of_pos _ (by simp)]
  | cons hd tl ih =>
    simp only [List.any_cons, Bool.or_eq_false_iff] at hany
    rw [List.cons_append, List.find?_cons_of_neg _ (by simp [hany.1])]
    exact ih hany.2

/-- Writing a record then reading the same id gives the record. -/
theorem lookupA_setA (h : List (String × ScanResult)) (k : String) (v : ScanResult) :
    lookupA (setA h k v) k = some v := by
  unfold lookupA setA
  by_cases hany : h.any (fun kv => kv.1 == k) = true
  · rw [if_pos hany, find_map_set h k v hany]
    rfl
  · have hany' : h.any (fun kv => kv.1 == k) = false := by
      cases hcase : h.any (fun kv => kv.1 == k)
      · rfl
      · exact absurd hcase hany
    rw [if_neg (by simp [hany']), find_app_new h k v hany']
    rfl

theorem find_map_ne (h : List (String × ScanResult)) (k k' : String)
    (v : ScanResult) (hkk : (k == k') = false) :
    (h.map (fun kv => if kv.1 == k then (k, v) else kv)).find?
        (fun kv => kv.1 == k') =
      h.find? (fun kv => kv.1 == k') := by
  induction h with
  | nil => rfl
  | cons hd tl ih =>
    by_cases hk : (hd.1 == k) = true
    · have h1 : hd.1 = k := by simpa using hk
      rw [List.map_cons, if_pos hk,
        List.find?_cons_of_neg _ (by simp [hkk]),
        List.find?_cons_of_neg _ (by simp [h1, hkk])]
      exact ih
    · rw [List.map_cons, if_neg hk]
      cases hc : (hd.1 == k') with
      | true =>
        have e1 : List.find? (fun kv : String × ScanResult => kv.1 == k')
            (hd :: tl.map (fun kv => if kv.1 == k then (k, v) else kv)) = some hd :=
          List.find?_cons_of_pos _ hc
        have e2 : List.find? (fun kv : String × ScanResult => kv.1 == k')
            (hd :: tl) = some hd :=
          List.find?_cons_of_pos _ hc
        rw [e1, e2]
      | false =>
        rw [List.find?_cons_of_neg _ (by simp [hc]),
          List.find?_cons_of_neg _ (by simp [hc])]
        exact ih

/-- Writing a record does not change reads of other ids. -/
theorem lookupA_setA_ne (h : List (String × ScanResult)) (k k' : String)
    (v : ScanResult) (hne : (k' == k) = false) :
    lookupA (setA h k v) k' = lookupA h k' := by
  have hkk : (k == k') = false := by
    cases hc : (k == k')
    · rfl
    · exfalso
      have : k = k' := by simpa using hc
      subst this
      simp at hne
  unfold lookupA setA
  by_cases hany : h.any (fun kv => kv.1 == k) = true
  · rw [if_pos hany, find_map_ne h k k' v hkk]
  · rw [if_neg hany, List.find?_append]
    have hnil : (([((k, v) : String × ScanResult)]).find? (fun kv => kv.1 == k')) = none := by
      rw [List.find?_cons_of_neg _ (by simp [hkk])]
      rfl
    rw [hnil]
    cases List.find? (fun kv => kv.1 == k') h <;> rfl

/-- `start_scan` without consent: the consent failure, with the state (the
history and the scans table included) unchanged, whatever the target. -/
theorem start_scan_no_consent (cfg : Config) (st : OrchState) (target : String)
    (scanType : ScanType) (portRange : Option String) (now : Nat) (newId : String) :
    start_scan cfg st target scanType portRange false now newId =
      (.error .consentRequired, st) := rfl

/-- Successful `start_scan` creates exactly a PENDING record under the fresh
id. -/
theorem start_scan_ok (cfg : Config) (st : OrchState) (target : String)
    (scanType : ScanType) (portRange : Option String) (now : Nat) (newId : String)
    (rec : ScanResult) (st' : OrchState)
    (h : start_scan cfg st target scanType portRange true now newId = (.ok rec, st')) :
    rec.status = .pending ∧ rec.scan_id = newId
    ∧ lookupA st'.scan_history newId = some rec
    ∧ st'.current_scan = some newId := by
  unfold start_scan at h
  simp only [Bool.not_true, Bool.false_eq_true, if_false, ite_false] at h
  split at h
  · simp [Prod.ext_iff] at h
  · split at h
    · simp [Prod.ext_iff] at h
    · split at h
      · simp [Prod.ext_iff] at h
      · simp only [Prod.mk.injEq, Except.ok.injEq] at h
        obtain ⟨h1, h2⟩ := h
        subst h1
        subst h2
        refine ⟨rfl, rfl, ?_, rfl⟩
        exact lookupA_setA _ _ _

/-- The background error path: the record is marked FAILED with the message
in its error field; `run_scan_background` is total, so the exception reaches
no caller. -/
theorem run_scan_background_error (st : OrchState) (scanId : String)
    (portRange : Option String) (msg : String) (now : Nat) (old : ScanResult)
    (hold : lookupA st.scan_history scanId = some old) :
    lookupA (run_scan_background st scanId portRange (.error msg) now).scan_history
        scanId =
      some { old with status := .failed,
                      error_message := some ("Scan error: " ++ msg),
                      completed_at := some now } := by
  unfold run_scan_background
  rw [hold]
  exact lookupA_setA _ _ _

end ScanOrchestrator

namespace FakeNetworkGenerator

/-- Devices generated down carry no informative fields. -/
theorem genDevices_down (now : Nat) :
    ∀ (pairs : List (Nat × DeviceType)) (st : PyRandom.RandState) (i : Nat),
      ∀ d ∈ (genDevices now st i pairs).1, d.is_up = false →
        d.mac = none ∧ d.hostname = none ∧ d.vendor = none ∧ d.os = none
        ∧ d.os_accuracy = none ∧ d.device_type = some DeviceType.unknown
        ∧ d.open_ports = [] := by
  intro pairs
  induction pairs with
  | nil => intro st i d hd; simp [genDevices] at hd
  | cons hd tl ih =>
    intro st i d hmem hdown
    obtain ⟨ip, t⟩ := hd
    unfold genDevices at hmem
    dsimp only [] at hmem
    rcases List.mem_cons.1 hmem with heq | htl
    · subst heq
      exact generate_device_down ip t i now st hdown
    · exact ih _ _ d htl hdown

end FakeNetworkGenerator

/-- C1.  For every CIDR string `t` (the validator built with the default
maximum of 256 addresses): `NetworkValidator.validate(t)` succeeds iff `t`
parses as a network, every address of the (normalised) network lies inside a
private (10/8, 172.16/12, 192.168/16), loopback (127/8) or link-local
(169.254/16) range, and the address count is at most 256; otherwise it fails
with InvalidFormat (unparseable), TooLarge (too many addresses) or NotPrivate
(parseable and within the size limit but not fully private). -/
theorem C1_validate_characterization (t : String)
    (hs : IPv4.containsSlash t = true) :
    (∀ a p, IPv4.parseIPv4Network t = some (a, p) →
      ((∃ v, NetworkValidator.validate t 256 = .ok v) ↔
        (NetworkValidator.specAllPrivate a p ∧ IPv4.blockSize p ≤ 256))
      ∧ (256 < IPv4.blockSize p →
          NetworkValidator.validate t 256 = .error NetworkValidator.VError.tooLarge)
      ∧ (IPv4.blockSize p ≤ 256 → ¬ NetworkValidator.specAllPrivate a p →
          NetworkValidator.validate t 256 = .error NetworkValidator.VError.notPrivate))
    ∧ (IPv4.parseIPv4Network t = none →
        NetworkValidator.validate t 256 = .error NetworkValidator.VError.invalidFormat) := by
  constructor
  · intro a p hparse
    exact NetworkValidator.validate_cidr_cases t a p hs hparse
  · intro hnone
    unfold NetworkValidator.validate
    rw [if_pos hs, hnone]

theorem C1_witness :
    IPv4.containsSlash ("192.168.1.0/24") = true
    ∧ ((∀ a p, IPv4.parseIPv4Network ("192.168.1.0/24") = some (a, p) →
        ((∃ v, NetworkValidator.validate ("192.168.1.0/24") 256 = .ok v) ↔
          (NetworkValidator.specAllPrivate a p ∧ IPv4.blockSize p ≤ 256))
        ∧ (256 < IPv4.blockSize p →
            NetworkValidator.validate ("192.168.1.0/24") 256 =
              .error NetworkValidator.VError.tooLarge)
        ∧ (IPv4.blockSize p ≤ 256 → ¬ NetworkValidator.specAllPrivate a p →
            NetworkValidator.validate ("192.168.1.0/24") 256 =
              .error NetworkValidator.VError.notPrivate))
      ∧ (IPv4.parseIPv4Network ("192.168.1.0/24") = none →
          NetworkValidator.validate ("192.168.1.0/24") 256 =
            .error NetworkValidator.VError.invalidFormat)) :=
  ⟨by decide, C1_validate_characterization ("192.168.1.0/24") (by decide)⟩

/-- C10.  A CIDR string whose address has host bits set below the prefix
(e.g. "192.168.1.5/24") does not fail with InvalidFormat: it parses with
strict=False and is validated exactly as its containing network (the
normalised network address), under the same size and privacy rules. -/
theorem C10_host_bits_normalised (t : String) (a p : Nat)
    (hs : IPv4.containsSlash t = true)
    (hparse : IPv4.parseIPv4Network t = some (a, p)) :
    NetworkValidator.validate t 256 ≠ .error NetworkValidator.VError.invalidFormat
    ∧ NetworkValidator.validate t 256 =
        NetworkValidator.validate_network (IPv4.netAddr a p) p 256 :=
  NetworkValidator.validate_cidr_normalises t a p hs hparse

theorem C10_witness :
    IPv4.containsSlash ("192.168.1.5/24") = true
    ∧ IPv4.parseIPv4Network ("192.168.1.5/24") = some (3232235781, 24)
    ∧ (NetworkValidator.validate ("192.168.1.5/24") 256 ≠
         .error NetworkValidator.VError.invalidFormat
       ∧ NetworkValidator.validate ("192.168.1.5/24") 256 =
           NetworkValidator.validate_network (IPv4.netAddr 3232235781 24) 24 256)
    ∧ NetworkValidator.validate ("192.168.1.5/24") 256 =
        .ok (NetworkValidator.Validated.network 3232235776 24) :=
  ⟨by decide, by decide,
   C10_host_bits_normalised ("192.168.1.5/24") 3232235781 24 (by decide) (by decide),
   rfl⟩

/-- C2.  `start_scan` with `consent = false` fails with the consent error
whatever the target (valid or not — the result does not depend on it), and
returns the state unchanged: no validation outcome is observable, and neither
the scan history nor the scans table receives any record. -/
theorem C2_no_consent_no_effect (cfg : ScanOrchestrator.Config)
    (st : ScanOrchestrator.OrchState) (target : String) (scanType : ScanType)
    (portRange : Option String) (now : Nat) (newId : String) :
    ScanOrchestrator.start_scan cfg st target scanType portRange false now newId =
      (.error ScanOrchestrator.OrchError.consentRequired, st) := rfl

/-- C3 (code bug).  With a fresh orchestrator, two immediate consenting
`start_scan` calls on valid targets both succeed: the first record is still
PENDING (its background task has not run) when the second call passes the
rate-limit check, because `_check_rate_limits` only blocks on a RUNNING
status.  The claim says the second call must fail with ScanInProgress or
CooldownActive; instead two non-terminal scans coexist. -/
theorem C3_second_start_not_blocked :
    (let st0 : ScanOrchestrator.OrchState := ⟨[], none, none, [], none⟩
     let r1 := ScanOrchestrator.start_scan ScanOrchestrator.defaultConfig st0
       ("192.168.1.1") ScanType.quick none true 1000 ("scan-1")
     let r2 := ScanOrchestrator.start_scan ScanOrchestrator.defaultConfig r1.2
       ("192.168.1.2") ScanType.quick none true 1001 ("scan-2")
     (r1.1.toOption.map ScanResult.status = some ScanStatus.pending)
     ∧ (r2.1.toOption.map ScanResult.status = some ScanStatus.pending)
     ∧ ((ScanOrchestrator.lookupA r2.2.scan_history ("scan-1")).map ScanResult.status
          = some ScanStatus.pending)
     ∧ ((ScanOrchestrator.lookupA r2.2.scan_history ("scan-2")).map ScanResult.status
          = some ScanStatus.pending)) := by decide

/-- C4.  A failure raised inside the background unit is captured, never
propagated: `_run_scan_background` is a total state transition (no caller of
`start_scan` or `get_scan_status` can observe an exception from it), the
record's status becomes FAILED with the message in its error field, and
`get_scan_status` afterwards returns exactly that FAILED record. -/
theorem C4_background_failure_captured (st : ScanOrchestrator.OrchState)
    (scanId : String) (portRange : Option String) (msg : String) (now : Nat)
    (old : ScanResult)
    (hold : ScanOrchestrator.lookupA st.scan_history scanId = some old) :
    ScanOrchestrator.lookupA
        (ScanOrchestrator.run_scan_background st scanId portRange
          (.error msg) now).scan_history scanId =
      some { old with status := .failed,
                      error_message := some ("Scan error: " ++ msg),
                      completed_at := some now }
    ∧ ScanOrchestrator.get_scan_status
        (ScanOrchestrator.run_scan_background st scanId portRange
          (.error msg) now) scanId =
      some { old with status := .failed,
                      error_message := some ("Scan error: " ++ msg),
                      completed_at := some now } := by
  have h1 := ScanOrchestrator.run_scan_background_error st scanId portRange msg now old hold
  refine ⟨h1, ?_⟩
  unfold ScanOrchestrator.get_scan_status
  rw [h1]

theorem C4_witness :
    (ScanOrchestrator.lookupA
        [(("s1" : String),
          ({ scan_id := "s1", target_range := "192.168.1.1", scan_type := .quick,
             status := .pending, devices := [], started_at := none,
             completed_at := none, error_message := none, progress := 0,
             scanned_hosts := 0, total_hosts := 0 } : ScanResult))] ("s1") =
      some { scan_id := "s1", target_range := "192.168.1.1", scan_type := .quick,
             status := .pending, devices := [], started_at := none,
             completed_at := none, error_message := none, progress := 0,
             scanned_hosts := 0, total_hosts := 0 })
    ∧ (ScanOrchestrator.lookupA
        (ScanOrchestrator.run_scan_background
          ⟨[(("s1" : String),
             { scan_id := "s1", target_range := "192.168.1.1", scan_type := .quick,
               status := .pending, devices := [], started_at := none,
               completed_at := none, error_message := none, progress := 0,
               scanned_hosts := 0, total_hosts := 0 })], some ("s1"), none, [], none⟩
          ("s1") none (.error ("boom")) 7).scan_history ("s1") =
      some { scan_id := "s1", target_range := "192.168.1.1", scan_type := .quick,
             status := .failed, devices := [], started_at := none,
             completed_at := some 7,
             error_message := some ("Scan error: " ++ "boom"), progress := 0,
             scanned_hosts := 0, total_hosts := 0 }) := by
  refine ⟨by decide, ?_⟩
  exact (C4_background_failure_captured
    ⟨[("s1", { scan_id := "s1", target_range := "192.168.1.1", scan_type := .quick,
               status := .pending, devices := [], started_at := none,
               completed_at := none, error_message := none, progress := 0,
               scanned_hosts := 0, total_hosts := 0 })], some ("s1"), none, [], none⟩
    ("s1") none ("boom") 7
    { scan_id := "s1", target_range := "192.168.1.1", scan_type := .quick,
      status := .pending, devices := [], started_at := none,
      completed_at := none, error_message := none, progress := 0,
      scanned_hosts := 0, total_hosts := 0 } (by decide)).1

/-- C6.  The simulated scan is deterministic in its generated content: for a
fixed target string the device IPs, MAC/vendor pairs, device types, port
lists with services and up/down flags do not depend on anything but the
target (two calls differ only in their wall-clock fields, here the explicit
`now` parameter), because every random draw comes from `random.Random(seed)`
with `seed` the first 4 bytes of `sha256(target)`. -/
theorem C6_simulated_scan_deterministic (target : String) (sType : ScanType)
    (sid : Option String) (now1 now2 : Nat) :
    FakeNetworkGenerator.scanContent
        (FakeNetworkGenerator.scan_network target sType sid now1) =
      FakeNetworkGenerator.scanContent
        (FakeNetworkGenerator.scan_network target sType sid now2) := by
  unfold FakeNetworkGenerator.scan_network
  cases hp : IPv4.parseIPv4Network target with
  | none => rfl
  | some ap =>
    obtain ⟨a, p⟩ := ap
    unfold FakeNetworkGenerator.scanContent FakeNetworkGenerator.scan_body
      FakeNetworkGenerator.scan_devices
    dsimp only []
    congr 1
    exact (FakeNetworkGenerator.genDevices_time now1 now2 _ _ _).1

/-- C7 counterexample.  A device exposing both 3389 and the printer port 631
is classified as a printer by the ordered rule chain (the printer signature
fires first), refuting "a device whose open-port set includes 3389 is
classified as workstation regardless of any other open ports". -/
theorem C7_counterexample :
    DeviceFingerprinter.identify_type ("192.168.1.20") [3389, 631] [] =
        DeviceType.printer
    ∧ DeviceType.printer ≠ DeviceType.workstation := by decide

/-- C7 amended.  A device with both 9100 and 631 open always classifies as a
printer whatever else is open; a device with 3389 open classifies as a
workstation provided none of the earlier signatures fires, i.e. none of the
printer ports 515/631/9100 and none of the camera ports 554/8554 is open. -/
theorem C7_amended_classification (ip : String) (ports : List Nat)
    (services : List String) :
    (ports.contains 9100 = true → ports.contains 631 = true →
      DeviceFingerprinter.identify_type ip ports services = DeviceType.printer)
    ∧ (ports.contains 3389 = true →
      DeviceFingerprinter.intersects ports [515, 631, 9100] = false →
      DeviceFingerprinter.intersects ports [554, 8554] = false →
      DeviceFingerprinter.identify_type ip ports services = DeviceType.workstation) := by
  constructor
  · intro h9 h6
    have hne : ports.isEmpty = false := by
      cases ports
      · simp at h9
      · rfl
    have hint : DeviceFingerprinter.intersects ports [515, 631, 9100] = true := by
      unfold DeviceFingerprinter.intersects
      rw [List.any_eq_true]
      exact ⟨9100, by simpa using h9, by decide⟩
    have hm : DeviceFingerprinter.matches_signature ("printer") ports services = true := by
      show (if !([515, 631, 9100] : List Nat).isEmpty &&
              !DeviceFingerprinter.intersects ports [515, 631, 9100] then false
            else if !(["lpd", "ipp", "jetdirect"] : List String).isEmpty &&
              DeviceFingerprinter.intersectsS services ["lpd", "ipp", "jetdirect"] then true
            else if !([515, 631, 9100] : List Nat).isEmpty &&
              DeviceFingerprinter.intersects ports [515, 631, 9100] then true
            else false) = true
      rw [hint]
      cases DeviceFingerprinter.intersectsS services ["lpd", "ipp", "jetdirect"] <;> rfl
    unfold DeviceFingerprinter.identify_type
    rw [hne, hm]
    rfl
  · intro h3 hnp hnc
    have hne : ports.isEmpty = false := by
      cases ports
      · simp at h3
      · rfl
    have hmp : DeviceFingerprinter.matches_signature ("printer") ports services = false := by
      show (if !([515, 631, 9100] : List Nat).isEmpty &&
              !DeviceFingerprinter.intersects ports [515, 631, 9100] then false
            else if !(["lpd", "ipp", "jetdirect"] : List String).isEmpty &&
              DeviceFingerprinter.intersectsS services ["lpd", "ipp", "jetdirect"] then true
            else if !([515, 631, 9100] : List Nat).isEmpty &&
              DeviceFingerprinter.intersects ports [515, 631, 9100] then true
            else false) = false
      rw [hnp]
      rfl
    have hmc : DeviceFingerprinter.matches_signature ("camera") ports services = false := by
      show (if !([554, 8554] : List Nat).isEmpty &&
              !DeviceFingerprinter.intersects ports [554, 8554] then false
            else if !(["rtsp"] : List String).isEmpty &&
              DeviceFingerprinter.intersectsS services ["rtsp"] then true
            else if !([554, 8554] : List Nat).isEmpty &&
              DeviceFingerprinter.intersects ports [554, 8554] then true
            else false) = false
      rw [hnc]
      rfl
    have h35 : (ports.contains 3389 || ports.contains 5900) = true := by
      rw [h3]
      rfl
    unfold DeviceFingerprinter.identify_type
    rw [hne, hmp, hmc, h35]
    rfl

theorem C7_witness :
    DeviceFingerprinter.identify_type ("10.0.0.7") [80, 9100, 631, 3389] [] =
        DeviceType.printer
    ∧ DeviceFingerprinter.identify_type ("10.0.0.8") [3389, 80] [] =
        DeviceType.workstation :=
  ⟨(C7_amended_classification ("10.0.0.7") [80, 9100, 631, 3389] []).1
      (by decide) (by decide),
   (C7_amended_classification ("10.0.0.8") [3389, 80] []).2
      (by decide) (by decide) (by decide)⟩

/-- C8.  Every device the simulated scan marks down carries no MAC, hostname,
vendor, OS or OS accuracy, has an empty port list, and its device type is
recorded as the null classification UNKNOWN (the code writes
`DeviceType.UNKNOWN` rather than leaving the field unset). -/
theorem C8_down_device_fields (target : String) (sType : ScanType)
    (sid : Option String) (now : Nat) (r : ScanResult)
    (hr : FakeNetworkGenerator.scan_network target sType sid now = .ok r)
    (d : DeviceInfo) (hd : d ∈ r.devices) (hdown : d.is_up = false) :
    d.mac = none ∧ d.hostname = none ∧ d.vendor = none ∧ d.os = none
    ∧ d.os_accuracy = none ∧ d.device_type = some DeviceType.unknown
    ∧ d.open_ports = [] := by
  unfold FakeNetworkGenerator.scan_network at hr
  split at hr
  · cases hr
  · rename_i a p heq
    rw [Except.ok.injEq] at hr
    subst hr
    unfold FakeNetworkGenerator.scan_body FakeNetworkGenerator.scan_devices at hd
    dsimp only [] at hd
    exact FakeNetworkGenerator.genDevices_down now _ _ _ d hd hdown

set_option maxRecDepth 1000000

set_option maxHeartbeats 4000000

theorem C8_witness :
    (FakeNetworkGenerator.scan_network ("192.168.1.0/30") ScanType.quick none 100 =
      .ok (FakeNetworkGenerator.scan_body ("192.168.1.0/30") 3232235776 30
            ScanType.quick none 100))
    ∧ ((FakeNetworkGenerator.scan_body ("192.168.1.0/30") 3232235776 30
          ScanType.quick none 100).devices.head? =
        some (⟨"192.168.1.2", none, none, none, none, none,
          some DeviceType.unknown, [], 100, false⟩ : DeviceInfo))
    ∧ ((⟨"192.168.1.2", none, none, none, none, none, some DeviceType.unknown,
         [], 100, false⟩ : DeviceInfo).mac = none
       ∧ (⟨"192.168.1.2", none, none, none, none, none, some DeviceType.unknown,
         [], 100, false⟩ : DeviceInfo).hostname = none
       ∧ (⟨"192.168.1.2", none, none, none, none, none, some DeviceType.unknown,
         [], 100, false⟩ : DeviceInfo).vendor = none
       ∧ (⟨"192.168.1.2", none, none, none, none, none, some DeviceType.unknown,
         [], 100, false⟩ : DeviceInfo).os = none
       ∧ (⟨"192.168.1.2", none, none, none, none, none, some DeviceType.unknown,
         [], 100, false⟩ : DeviceInfo).os_accuracy = none
       ∧ (⟨"192.168.1.2", none, none, none, none, none, some DeviceType.unknown,
         [], 100, false⟩ : DeviceInfo).device_type = some DeviceType.unknown
       ∧ (⟨"192.168.1.2", none, none, none, none, none, some DeviceType.unknown,
         [], 100, false⟩ : DeviceInfo).open_ports = []) := by
  have hh : (FakeNetworkGenerator.scan_body ("192.168.1.0/30") 3232235776 30
      ScanType.quick none 100).devices.head? =
      some (⟨"192.168.1.2", none, none, none, none, none,
        some DeviceType.unknown, [], 100, false⟩ : DeviceInfo) := by decide
  refine ⟨rfl, hh, ?_⟩
  exact C8_down_device_fields ("192.168.1.0/30") ScanType.quick none 100
    (FakeNetworkGenerator.scan_body ("192.168.1.0/30") 3232235776 30
      ScanType.quick none 100)
    rfl _ (List.mem_of_mem_head? (by rw [hh]; rfl)) rfl

/-- C5 counterexample.  Observed lifecycle in training mode: the record is
created PENDING by `start_scan` and moved directly to COMPLETED by the
background unit processing the simulated scanner's result — no RUNNING state
is ever stored, refuting the claimed PENDING → RUNNING → terminal path. -/
theorem C5_counterexample :
    (let st0 : ScanOrchestrator.OrchState := ⟨[], none, none, [], none⟩
     let r1 := ScanOrchestrator.start_scan ScanOrchestrator.defaultConfig st0
       ("192.168.1.0/30") ScanType.quick none true 1000 ("scan-1")
     let st2 := ScanOrchestrator.run_scan_background r1.2 ("scan-1") none
       (FakeNetworkGenerator.scan_network ("192.168.1.0/30") ScanType.quick
         (some ("scan-1")) 1002) 1003
     ((ScanOrchestrator.lookupA r1.2.scan_history ("scan-1")).map ScanResult.status
        = some ScanStatus.pending)
     ∧ ((ScanOrchestrator.lookupA st2.scan_history ("scan-1")).map ScanResult.status
        = some ScanStatus.completed)) := by decide

/-- C5 amended.  The lifecycle the code actually implements: `start_scan`
creates the record PENDING; the background unit rewrites it directly to the
scanner-reported terminal status (COMPLETED for the simulated scanner) or to
FAILED on error; and no operation on one scan id alters the record stored
under another, so terminal records are never modified afterwards. -/
theorem C5_amended_lifecycle :
    (∀ cfg st target sType pr now id rec st',
       ScanOrchestrator.start_scan cfg st target sType pr true now id =
         (.ok rec, st') → rec.status = .pending)
    ∧ (∀ target sType sid now r,
       FakeNetworkGenerator.scan_network target sType sid now = .ok r →
       r.status = .completed)
    ∧ (∀ st id pr msg now old,
       ScanOrchestrator.lookupA st.scan_history id = some old →
       (ScanOrchestrator.lookupA
         (ScanOrchestrator.run_scan_background st id pr (.error msg)
           now).scan_history id).map ScanResult.status = some .failed)
    ∧ (∀ st id pr outcome now id', (id == id') = false →
       ScanOrchestrator.lookupA
         (ScanOrchestrator.run_scan_background st id' pr outcome
           now).scan_history id =
       ScanOrchestrator.lookupA st.scan_history id)
    ∧ (∀ cfg st target sType pr c now id' id res st', (id == id') = false →
       ScanOrchestrator.start_scan cfg st target sType pr c now id' =
         (res, st') →
       ScanOrchestrator.lookupA st'.scan_history id =
       ScanOrchestrator.lookupA st.scan_history id) := by
  refine ⟨?_, ?_, ?_, ?_, ?_⟩
  · intro cfg st target sType pr now id rec st' h
    exact (ScanOrchestrator.start_scan_ok cfg st target sType pr now id rec st' h).1
  · intro target sType sid now r h
    unfold FakeNetworkGenerator.scan_network at h
    split at h
    · cases h
    · rw [Except.ok.injEq] at h
      subst h
      rfl
  · intro st id pr msg now old hold
    rw [ScanOrchestrator.run_scan_background_error st id pr msg now old hold]
    rfl
  · intro st id pr outcome now id' hne
    cases outcome with
    | ok result =>
      show ScanOrchestrator.lookupA
        (if (ScanOrchestrator.lookupA st.scan_history id').isSome then
          ScanOrchestrator.setA st.scan_history id' result
        else st.scan_history) id = ScanOrchestrator.lookupA st.scan_history id
      split
      · exact ScanOrchestrator.lookupA_setA_ne _ _ _ _ hne
      · rfl
    | error msg =>
      cases hl : ScanOrchestrator.lookupA st.scan_history id' with
      | some old =>
        show ScanOrchestrator.lookupA
          (ScanOrchestrator.run_scan_background st id' pr (.error msg)
            now).scan_history id = _
        unfold ScanOrchestrator.run_scan_background
        rw [hl]
        exact ScanOrchestrator.lookupA_setA_ne _ _ _ _ hne
      | none =>
        show ScanOrchestrator.lookupA
          (ScanOrchestrator.run_scan_background st id' pr (.error msg)
            now).scan_history id = _
        unfold ScanOrchestrator.run_scan_background
        rw [hl]
  · intro cfg st target sType pr c now id' id res st' hne h
    unfold ScanOrchestrator.start_scan at h
    dsimp only [] at h
    split at h
    · injection h with h1 h2
      subst h2
      rfl
    · split at h
      · injection h with h1 h2
        subst h2
        rfl
      · split at h
        · injection h with h1 h2
          subst h2
          rfl
        · split at h
          · injection h with h1 h2
            subst h2
            rfl
          · injection h with h1 h2
            subst h2
            exact ScanOrchestrator.lookupA_setA_ne _ _ _ _ hne

theorem C5_amended_witness :
    ({ scan_id := "sid", target_range := "10.0.0.1", scan_type := .quick,
       status := .pending, devices := [], started_at := none,
       completed_at := none, error_message := none, progress := 0,
       scanned_hosts := 0, total_hosts := 0 } : ScanResult).status =
      ScanStatus.pending :=
  C5_amended_lifecycle.1 ScanOrchestrator.defaultConfig ⟨[], none, none, [], none⟩
    ("10.0.0.1") ScanType.quick none 5 ("sid")
    { scan_id := "sid", target_range := "10.0.0.1", scan_type := .quick,
      status := .pending, devices := [], started_at := none,
      completed_at := none, error_message := none, progress := 0,
      scanned_hosts := 0, total_hosts := 0 }
    ⟨[("sid",
        { scan_id := "sid", target_range := "10.0.0.1", scan_type := .quick,
          status := .pending, devices := [], started_at := none,
          completed_at := none, error_message := none, progress := 0,
          scanned_hosts := 0, total_hosts := 0 })],
      some ("sid"), none,
      [{ scan_id := "sid", scan_type := .quick, status := .pending,
         target_range := "10.0.0.1", port_range := none, started_at := none,
         completed_at := none, progress := 0, scanned_hosts := 0,
         total_hosts := 0, results_summary := none }],
      none⟩ rfl

/-- C9 counterexample.  For the in-range home target 192.168.1.0/30 the
completed simulated scan has only 2 devices (outside the claimed 3–15), and
neither of them — the first included — is typed ROUTER: the first generated
device is down and therefore reported UNKNOWN, so the scan contains no router
at all. -/
theorem C9_counterexample :
    ((FakeNetworkGenerator.scan_network ("192.168.1.0/30") ScanType.quick
        none 100).toOption.map
        (fun r => (r.status, r.devices.map (fun d => (d.device_type, d.is_up)))) =
      some (ScanStatus.completed,
        [(some DeviceType.unknown, false), (some DeviceType.iot, true)]))
    ∧ ((FakeNetworkGenerator.scan_network ("192.168.1.0/30") ScanType.quick
        none 100).toOption.map (fun r => r.devices.length) = some 2) := by
  constructor
  · decide
  · decide

/-- C9 amended.  For a target in 192.168/16 with at least 3 usable host
addresses, the simulated scan completes with progress 100 and between 3 and
15 devices; the first device is generated from the router template, is typed
ROUTER exactly when it is up and UNKNOWN when it is down (in which case no
router need appear); whenever the first device is up the result contains a
ROUTER device. -/
theorem C9_amended_home_scan (t : String) (a p : Nat) (sType : ScanType)
    (sid : Option String) (now : Nat)
    (hparse : IPv4.parseIPv4Network t = some (a, p))
    (h1 : (IPv4.netAddr a p >>> 24) &&& 255 = 192)
    (h2 : (IPv4.netAddr a p >>> 16) &&& 255 = 168)
    (hh : 3 ≤ (IPv4.hostsList a p).length) :
    ∃ r, FakeNetworkGenerator.scan_network t sType sid now = .ok r
      ∧ r.status = .completed ∧ r.progress = 100
      ∧ 3 ≤ r.devices.length ∧ r.devices.length ≤ 15
      ∧ ∃ d0, r.devices.head? = some d0
        ∧ d0.device_type =
            some (if d0.is_up then DeviceType.router else DeviceType.unknown)
        ∧ (d0.is_up = true →
            ∃ d, d ∈ r.devices ∧ d.device_type = some DeviceType.router) := by
  obtain ⟨hsw1, hsw0⟩ :=
    FakeNetworkGenerator.startswith_192168 (IPv4.netAddr a p) h1 h2
  have hdev : (FakeNetworkGenerator.scan_body t a p sType sid now).devices =
      (FakeNetworkGenerator.scan_devices (IPv4.ipStr (IPv4.netAddr a p))
        (IPv4.hostsList a p)
        (PyRandom.randint 3 15
          (PyRandom.seedState (FakeNetworkGenerator.generate_seed t))).1 now
        (PyRandom.randint 3 15
          (PyRandom.seedState (FakeNetworkGenerator.generate_seed t))).2).1 := by
    unfold FakeNetworkGenerator.scan_body
    dsimp only []
    rw [hsw0, hsw1]
    rfl
  have hdc := PyRandom.randint_mem 3 15 (by omega)
    (PyRandom.seedState (FakeNetworkGenerator.generate_seed t))
  have hlen : (FakeNetworkGenerator.scan_body t a p sType sid now).devices.length =
      min (PyRandom.randint 3 15
        (PyRandom.seedState (FakeNetworkGenerator.generate_seed t))).1
        (IPv4.hostsList a p).length := by
    rw [hdev]
    exact FakeNetworkGenerator.scan_devices_length _ _ _ _ _ (by omega)
  have hmin : 1 ≤ min (PyRandom.randint 3 15
      (PyRandom.seedState (FakeNetworkGenerator.generate_seed t))).1
      (IPv4.hostsList a p).length := by omega
  obtain ⟨d0, hhead, hmem, htype⟩ :=
    FakeNetworkGenerator.scan_devices_head (IPv4.ipStr (IPv4.netAddr a p))
      (IPv4.hostsList a p)
      (PyRandom.randint 3 15
        (PyRandom.seedState (FakeNetworkGenerator.generate_seed t))).1 now
      (PyRandom.randint 3 15
        (PyRandom.seedState (FakeNetworkGenerator.generate_seed t))).2 hmin
  refine ⟨FakeNetworkGenerator.scan_body t a p sType sid now, ?_, rfl, rfl,
    by omega, by omega, d0, ?_, htype, ?_⟩
  · unfold FakeNetworkGenerator.scan_network
    rw [hparse]
  · rw [hdev]
    exact hhead
  · intro hup
    refine ⟨d0, ?_, ?_⟩
    · rw [hdev]
      exact hmem
    · rw [htype, hup]
      rfl

theorem C9_witness :
    IPv4.parseIPv4Network ("192.168.1.8/29") = some (3232235784, 29)
    ∧ (IPv4.netAddr 3232235784 29 >>> 24) &&& 255 = 192
    ∧ (IPv4.netAddr 3232235784 29 >>> 16) &&& 255 = 168
    ∧ 3 ≤ (IPv4.hostsList 3232235784 29).length
    ∧ (∃ r, FakeNetworkGenerator.scan_network ("192.168.1.8/29") ScanType.quick
          none 100 = .ok r
        ∧ r.status = .completed ∧ r.progress = 100
        ∧ 3 ≤ r.devices.length ∧ r.devices.length ≤ 15
        ∧ ∃ d0, r.devices.head? = some d0
          ∧ d0.device_type =
              some (if d0.is_up then DeviceType.router else DeviceType.unknown)
          ∧ (d0.is_up = true →
              ∃ d, d ∈ r.devices ∧ d.device_type = some DeviceType.router)) :=
  ⟨by decide, by decide, by decide, by decide,
   C9_amended_home_scan ("192.168.1.8/29") 3232235784 29 ScanType.quick none 100
     (by decide) (by decide) (by decide) (by decide)⟩
